import Mathlib

/-!
Verification development for the db-chat-bot repository.

The development shallowly embeds the two core components the claims are
about:

* `guardrails/input_guardrails.py` (`InputGuardrails`): a pure SQL safety
  validator built from a forbidden-keyword scan, a regex-idiom scan, and a
  select-only check over the output of the `sqlparse` library.  The
  `sqlparse` tokenizer is third-party code and is modelled as an explicit
  parameter (`String → Except String (List SqlStmt)`), so all theorems about
  the validator quantify over every possible parser output.

* `agents/workflow_agent.py` (`WorkflowAgent`): the LangGraph workflow.
  Nodes and conditional edges are embedded as state transformers over an
  `AgentState` record, and the graph of `_build_graph` is embedded as a
  driver that follows its edges.  External collaborators (RAG, database
  client, LLM generator/fixer/classifier/response generator) are modelled as
  a stateful environment record `Env σ`; every theorem about the workflow
  quantifies over all environments.  Python exceptions that can escape the
  workflow (`KeyError` on a missing state key, `AttributeError` from
  `None.upper()`) are modelled by an explicit error outcome.

Strings are modelled with Lean `String`; Python `str.upper`/`str.lower` and
the `re` word classes are modelled over the ASCII range (the queries the
claims are about are ASCII SQL).
-/

namespace DbChatBot

/-! ### Character helpers (ASCII model of Python string methods) -/

/-- ASCII model of Python `str.upper` on a single character. -/
def upChar (c : Char) : Char :=
  if 97 ≤ c.toNat ∧ c.toNat ≤ 122 then Char.ofNat (c.toNat - 32) else c

/-- ASCII model of Python `str.lower` on a single character. -/
def lowChar (c : Char) : Char :=
  if 65 ≤ c.toNat ∧ c.toNat ≤ 90 then Char.ofNat (c.toNat + 32) else c

/-- Python `str.upper` (ASCII model). -/
def pyUpper (s : String) : String := ⟨s.data.map upChar⟩

/-- Python `str.lower` (ASCII model). -/
def pyLower (s : String) : String := ⟨s.data.map lowChar⟩

/-- Python whitespace (`str.strip` default set and the regex class `\s`). -/
def isWsChar (c : Char) : Bool :=
  c == ' ' || c == '\t' || c == '\n' || c == '\r' || c.toNat == 11 || c.toNat == 12

/-- Python `str.strip()` on a character list. -/
def stripChars (l : List Char) : List Char :=
  ((l.dropWhile isWsChar).reverse.dropWhile isWsChar).reverse

/-- Python `str.strip()`. -/
def pyStrip (s : String) : String := ⟨stripChars s.data⟩

/-- Python substring test `needle in hay`. -/
def hasSub (needle : List Char) : List Char → Bool
  | [] => needle.isEmpty
  | c :: rest => needle.isPrefixOf (c :: rest) || hasSub needle rest

/-- The regex word class `\w` (ASCII model). -/
def isWordChar (c : Char) : Bool :=
  (48 ≤ c.toNat && c.toNat ≤ 57) || (65 ≤ c.toNat && c.toNat ≤ 90) ||
    (97 ≤ c.toNat && c.toNat ≤ 122) || c == '_'

/-- A word boundary holds against `none` (string edge) or a non-word char. -/
def boundaryOk : Option Char → Bool
  | none => true
  | some c => !isWordChar c

/-- Whether `\bkw\b` matches at the head of `s`, given the char just before `s`. -/
def wordHereOk (kw : List Char) (prev : Option Char) (s : List Char) : Bool :=
  boundaryOk prev && kw.isPrefixOf s && boundaryOk (s.drop kw.length).head?

/-- Model of `re.search(r'\bkw\b', ·)` scanning with the previous character. -/
def hasWordFrom (kw : List Char) (prev : Option Char) : List Char → Bool
  | [] => false
  | c :: rest => wordHereOk kw prev (c :: rest) || hasWordFrom kw (some c) rest

/-- Whether `re.search(r'\b' + kw + r'\b', s)` succeeds (whole-word occurrence). -/
def hasWholeWord (kw : String) (s : String) : Bool :=
  hasWordFrom kw.data none s.data

/-! ### InputGuardrails: keyword set and injection patterns -/

/-- Embedding of `InputGuardrails.FORBIDDEN_KEYWORDS` (a Python set, listed in source
order; only membership matters for the validator's boolean result). -/
def FORBIDDEN_KEYWORDS : List String :=
  ["DROP", "DELETE", "INSERT", "UPDATE", "TRUNCATE", "ALTER",
   "CREATE", "GRANT", "REVOKE", "EXEC", "EXECUTE", "CALL"]

/-- Matchability of `kw` after a `.*` gap (`.` does not match a newline). -/
def seekNoNl (kw : List Char) : List Char → Bool
  | [] => kw.isEmpty
  | c :: rest => kw.isPrefixOf (c :: rest) || (c != '\n' && seekNoNl kw rest)

/-- After an opening `/*`: a closing `*/` is reachable over non-newlines. -/
def blockCloseNoNl : List Char → Bool
  | [] => false
  | c :: rest => (c == '*' && rest.head? == some '/') || (c != '\n' && blockCloseNoNl rest)

/-- Model of `re.search(r'--', u)`: the pattern is a plain substring. -/
def matchDashDash (u : List Char) : Bool := hasSub ['-', '-'] u

/-- Model of `re.search(r'/\*.*?\*/', u)`. -/
def matchBlockComment : List Char → Bool
  | [] => false
  | c :: rest =>
      (c == '/' && rest.head? == some '*' && blockCloseNoNl rest.tail) || matchBlockComment rest

/-- Model of `re.search(r'union.*select', u, re.IGNORECASE)` on an uppercased string. -/
def matchUnionSelect : List Char → Bool
  | [] => false
  | c :: rest =>
      ("UNION".data.isPrefixOf (c :: rest) && seekNoNl "SELECT".data ((c :: rest).drop 5)) ||
        matchUnionSelect rest

/-- Model of `re.search(r';.*KW', u)` for a literal keyword `kw`. -/
def matchSemiThen (kw : List Char) : List Char → Bool
  | [] => false
  | c :: rest => (c == ';' && seekNoNl kw rest) || matchSemiThen kw rest

/-- Whether `\s*\(` matches at the head of the list. -/
def wsThenParen : List Char → Bool
  | [] => false
  | c :: rest => c == '(' || (isWsChar c && wsThenParen rest)

/-- Model of `re.search(r'exec\s*\(', u, re.IGNORECASE)` on an uppercased string. -/
def matchExecParen : List Char → Bool
  | [] => false
  | c :: rest =>
      ("EXEC".data.isPrefixOf (c :: rest) && wsThenParen ((c :: rest).drop 4)) ||
        matchExecParen rest

/-- The class `[0-9a-f]` under `re.IGNORECASE`. -/
def isHexDigitCh (c : Char) : Bool :=
  (48 ≤ c.toNat && c.toNat ≤ 57) || (65 ≤ c.toNat && c.toNat ≤ 70) ||
    (97 ≤ c.toNat && c.toNat ≤ 102)

/-- Model of `re.search(r'0x[0-9a-f]+', u, re.IGNORECASE)`. -/
def matchHexLit : List Char → Bool
  | [] => false
  | c :: rest =>
      (c == '0' && (match rest with
        | d :: e :: _ => (d == 'x' || d == 'X') && isHexDigitCh e
        | _ => false)) || matchHexLit rest

/-- Some pattern of `InputGuardrails.SQL_INJECTION_PATTERNS` matches the
normalized (uppercased) query `u`. -/
def sqlInjectionPatternHit (u : List Char) : Bool :=
  matchDashDash u || matchBlockComment u || matchUnionSelect u ||
    matchSemiThen "DROP".data u || matchSemiThen "DELETE".data u ||
    hasSub "XP_".data u || hasSub "SP_".data u ||
    matchExecParen u || matchHexLit u

/-! ### InputGuardrails: the three validators -/

/-- Error message for a forbidden keyword found by `check_sql_injection`. -/
def violationKwMsg (kw : String) : String :=
  "Security violation: \x27" ++ kw ++ "\x27 keyword detected. Only SELECT queries are allowed."

/-- Embedding of `InputGuardrails.check_sql_injection`.  Returns `(is_safe, error)`. -/
def check_sql_injection (query : String) : Bool × Option String :=
  let qn := pyUpper query
  match FORBIDDEN_KEYWORDS.find? (fun kw => hasWholeWord kw qn) with
  | some kw => (false, some (violationKwMsg kw))
  | none =>
    if sqlInjectionPatternHit qn.data then
      (false, some "Security violation: Potential SQL injection detected.")
    else (true, none)

/-- The `sqlparse` token kinds the validator distinguishes (`ttype is DML`,
`ttype is Keyword`, anything else). -/
inductive TokKind
  | dml
  | keyword
  | other
deriving BEq, DecidableEq

/-- One `sqlparse` token: its ttype class and its text. -/
structure SqlTok where
  kind : TokKind
  value : String
deriving DecidableEq

/-- One parsed statement, as its token list (`statement.tokens`). -/
abbrev SqlStmt := List SqlTok

/-- The first token whose ttype is DML or Keyword, uppercased
(`first_keyword` in `validate_select_only`). -/
def firstKeywordOf (ts : List SqlTok) : Option String :=
  match ts.find? (fun t => t.kind == TokKind.dml || t.kind == TokKind.keyword) with
  | some t => some (pyUpper t.value)
  | none => none

def multiStmtMsg : String :=
  "Multiple SQL statements are not allowed. Only single SELECT queries are permitted."

def nonSelectMsg (k : String) : String :=
  "Only SELECT queries are allowed. Found: " ++ k

def forbiddenOpMsg (kw : String) : String :=
  "Forbidden operation: " ++ kw ++
    " statements are not allowed. Only SELECT queries are permitted."

/-- The `for statement in parsed:` loop of `validate_select_only`. -/
def selectOnlyStmts (parsedLen : Nat) (queryUpperStripped : String) :
    List SqlStmt → Bool × Option String
  | [] => (true, none)
  | stmt :: rest =>
    match firstKeywordOf stmt with
    | none =>
      match FORBIDDEN_KEYWORDS.find? (fun kw => hasSub kw.data queryUpperStripped.data) with
      | some kw => (false, some (forbiddenOpMsg kw))
      | none =>
        if 1 < parsedLen then (false, some multiStmtMsg)
        else selectOnlyStmts parsedLen queryUpperStripped rest
    | some k =>
      if k ≠ "SELECT" then (false, some (nonSelectMsg k))
      else if 1 < parsedLen then (false, some multiStmtMsg)
      else selectOnlyStmts parsedLen queryUpperStripped rest

/-- A parser for the validator: the result of `sqlparse.parse(query)`, or
`Except.error e` when the third-party parser raises with text `e`. -/
abbrev SqlParse := String → Except String (List SqlStmt)

/-- Embedding of `InputGuardrails.validate_select_only`, parametric in the `sqlparse`
result.  Returns `(is_valid, error)`. -/
def validate_select_only (parseRes : Except String (List SqlStmt)) (query : String) :
    Bool × Option String :=
  match parseRes with
  | Except.error e => (false, some ("Invalid SQL syntax: " ++ e))
  | Except.ok [] => (false, some "Empty SQL query")
  | Except.ok parsed => selectOnlyStmts parsed.length (pyStrip (pyUpper query)) parsed

/-- Embedding of `InputGuardrails.validate_query`: injection check first, then the
select-only check. -/
def validate_query (parse : SqlParse) (query : String) : Bool × Option String :=
  match check_sql_injection query with
  | (false, e) => (false, e)
  | (true, _) =>
    match validate_select_only (parse query) query with
    | (false, e) => (false, e)
    | (true, _) => (true, none)

/-- A parser stub used in concrete runs: every query parses to one statement
whose first DML token is SELECT. -/
def parseOneSelect : SqlParse :=
  fun _ => Except.ok [[⟨TokKind.dml, "SELECT"⟩]]

/-! ### Workflow data model (`AgentState` and collaborator value shapes) -/

/-- One column entry of the schema dict built by
`PostgresClient.fetch_schema` (`default` is named `dflt`, `type` is `ty`). -/
structure ColumnInfo where
  name : String
  ty : String
  max_length : Option Nat
  nullable : Bool
  dflt : Option String
deriving DecidableEq

/-- One foreign-key entry of a table dict. -/
structure ForeignKey where
  column : String
  references_table : String
  references_column : String
deriving DecidableEq

/-- One table dict of the schema. -/
structure TableInfo where
  name : String
  columns : List ColumnInfo
  primary_keys : List String
  foreign_keys : List ForeignKey
deriving DecidableEq

/-- The schema dict `{"tables": [...]}`.  `fetch_schema` and `get_schema`
return either this dict (always truthy: it has the `tables` key) or `None`,
so an optional schema is modelled as `Option SchemaInfo`. -/
structure SchemaInfo where
  tables : List TableInfo
deriving DecidableEq

/-- One conversation-history message (`{"role": ..., "content": ...}`). -/
structure ChatMsg where
  role : String
  content : String
deriving DecidableEq

/-- The results dict of `PostgresClient.execute_query`.  Each field models
the presence of the corresponding dict key; row cells are opaque to the
workflow and are modelled as strings. -/
structure QueryResults where
  columns : Option (List String)
  rows : Option (List (List String))
deriving DecidableEq

/-- One step record appended by `WorkflowAgent._log_step`. -/
structure StepInfo where
  step : Nat
  name : String
  status : String
  message : String
deriving DecidableEq

/-- The LangGraph state (`AgentState` TypedDict).  Every field the workflow
reads with `state.get(...)` is an `Option` whose `none` covers both an
absent key and a stored `None`; `schema_info` and `sql_query` are only ever
stored truthy, so `none` coincides with the key being absent (which is what
makes `state["schema_info"]` raise).  The `df` key is only written for the
UI and never read by the workflow, so it is not modelled. -/
structure AgentState where
  user_query : String
  query_type : Option String := none
  schema_info : Option SchemaInfo := none
  sql_query : Option String := none
  validation_error : Option String := none
  execution_error : Option String := none
  query_results : Option QueryResults := none
  retry_count : Nat := 0
  steps : List StepInfo := []
  conversation_history : List ChatMsg := []
  final_response : Option String := none
deriving DecidableEq

/-- Python truthiness of an optional string (`None` and `""` are falsy). -/
def truthyStr : Option String → Bool
  | none => false
  | some s => !s.data.isEmpty

/-- Python f-string rendering of an optional string (`None` prints as
`"None"`). -/
def pyShowOptStr : Option String → String
  | none => "None"
  | some s => s

/-- Python exceptions the workflow code can raise (uncaught). -/
inductive PyErr
  | keyErrorSchemaInfo
  | attrErrorNoneQuery
  | typeErrorNoneSql
  | keyErrorRows
deriving DecidableEq

/-- A run outcome error: an uncaught Python exception, or exhaustion of the
embedding's fuel (proved unreachable for the fuel `runWorkflow` supplies). -/
inductive RunErr
  | py (e : PyErr)
  | fuel
deriving DecidableEq

/-- Which conditional edge routed into `fix_query` (ghost label). -/
inductive RepairTrigger
  | fromValidation
  | fromExecution
deriving BEq, DecidableEq

/-- Ghost trace events recording the collaborator-facing actions of a run:
each `InputGuardrails.validate_query` call with its verdict, each
`db_client.execute_query` call, and each `fix_query` transition. -/
inductive Event
  | validated (sql : String) (ok : Bool)
  | executed (sql : String)
  | repaired (trigger : RepairTrigger) (failedSql : Option String)
deriving BEq, DecidableEq

abbrev Trace := List Event

/-- The external collaborators of the workflow, as a stateful environment
over an arbitrary collaborator-state type `σ`.  `parse` is the `sqlparse`
library (pure and deterministic).  `classifyLLM` and `respondLLM` are
`Option` because the query classifier and response generator are optional
constructor arguments of `WorkflowAgent`; their `Except.error` models the
call raising, which the workflow catches. -/
structure Env (σ : Type) where
  parse : SqlParse
  ragGetSchema : σ → Option SchemaInfo × σ
  dbFetchSchema : σ → Option SchemaInfo × σ
  ragLoadSchema : SchemaInfo → σ → σ
  ragFormatContext : List String → σ → String × σ
  classifyLLM : Option (String → Option SchemaInfo → List ChatMsg → σ → Except Unit (Bool × String) × σ)
  genSql : String → SchemaInfo → List ChatMsg → String → σ → Option String × σ
  execQuery : String → σ → (Bool × Option QueryResults × Option String) × σ
  fixLLM : String → σ → Except Unit String × σ
  respondLLM : Option (String → List String → List (List String) → Option String → List ChatMsg → σ → Except Unit String × σ)

/-- The result of one node: updated state, collaborator state, ghost
events, and an uncaught exception if the node raised. -/
structure NodeOut (σ : Type) where
  st : AgentState
  coll : σ
  events : List Event := []
  err : Option PyErr := none

/-- Embedding of `WorkflowAgent._log_step`: append a step record. -/
def logStep (st : AgentState) (stepNum : Nat) (nm status message : String) : AgentState :=
  { st with steps := st.steps ++ [⟨stepNum, nm, status, message⟩] }

/-! ### Workflow nodes -/

/-- Greeting words of `WorkflowAgent._classify_query`. -/
def fallbackGreetingWords : List String :=
  ["hi", "hello", "hey", "greetings", "good morning", "good afternoon", "good evening"]

/-- Query-indicating keywords of `WorkflowAgent._classify_query`. -/
def fallbackSqlKeywords : List String :=
  ["show", "list", "display", "find", "get", "count", "how many", "what are", "which", "select"]

/-- Embedding of `WorkflowAgent._classify_query` (fallback heuristic): Python `in` is
substring containment on the lowercased input. -/
def classify_query (user_query : String) : String :=
  let ql := pyLower user_query
  if fallbackGreetingWords.any (fun w => hasSub w.data ql.data) then "greeting"
  else if fallbackSqlKeywords.any (fun w => hasSub w.data ql.data) then "sql_query"
  else "general_question"

def greetingResponse : String :=
  "Hello! 👋 I\x27m your database assistant. How can I help you query your database today?"

def generalResponse : String :=
  "I can help you query your database. Ask me questions like \x27Show me all products\x27 or \x27How many orders are there?\x27"

def genFailResponse : String :=
  "I couldn\x27t generate a SQL query for your question. Please try rephrasing it."

def schemaFailResponse : String :=
  "Failed to retrieve database schema. Please check your connection."

/-- Embedding of `WorkflowAgent._classify_query_node`. -/
def classifyNode {σ : Type} (env : Env σ) (st : AgentState) (s : σ) : NodeOut σ :=
  let st := logStep st 1 "Input Validation & Classification" "in_progress"
    "Checking query type and guardrails..."
  let uq := st.user_query
  let (qt, st, s) :=
    match env.classifyLLM with
    | some cls =>
      let (schemaOpt, s) := env.ragGetSchema s
      match cls uq schemaOpt st.conversation_history s with
      | (Except.ok (needsSql, reasoning), s) =>
        let qt := if needsSql then "sql_query" else "general_question"
        (qt, logStep st 1 "Input Validation & Classification" "completed"
          ("Query classified: " ++ reasoning), s)
      | (Except.error _, s) =>
        let qt := classify_query uq
        (qt, logStep st 1 "Input Validation & Classification" "completed"
          ("Query classified as: " ++ qt), s)
    | none =>
      let qt := classify_query uq
      (qt, logStep st 1 "Input Validation & Classification" "completed"
        ("Query classified as: " ++ qt), s)
  let st := { st with query_type := some qt }
  if qt = "greeting" then
    let st := { st with final_response := some greetingResponse }
    ⟨logStep st 1 "Input Validation & Classification" "completed"
      "Query classified as greeting", s, [], none⟩
  else if qt = "general_question" then
    let st := { st with final_response := some generalResponse }
    ⟨logStep st 1 "Input Validation & Classification" "completed"
      "Query classified as general question", s, [], none⟩
  else
    ⟨logStep st 1 "Input Validation & Classification" "completed"
      "Query requires SQL generation", s, [], none⟩

/-- Embedding of `WorkflowAgent._should_continue_to_sql`. -/
def shouldContinueToSql (st : AgentState) : Bool :=
  st.query_type == some "sql_query"

/-- Embedding of `WorkflowAgent._retrieve_schema_node`. -/
def retrieveSchemaNode {σ : Type} (env : Env σ) (st : AgentState) (s : σ) : NodeOut σ :=
  let st := logStep st 2 "Schema Retrieval (RAG)" "in_progress"
    "Retrieving database schema from RAG..."
  let (schemaOpt, s) := env.ragGetSchema s
  match schemaOpt with
  | some si =>
    let st := { st with schema_info := some si }
    ⟨logStep st 2 "Schema Retrieval (RAG)" "completed"
      ("Retrieved schema with " ++ toString si.tables.length ++ " table(s) from RAG"), s, [], none⟩
  | none =>
    let st := logStep st 2 "Schema Retrieval (RAG)" "in_progress"
      "Schema not in RAG, fetching from database..."
    let (dbOpt, s) := env.dbFetchSchema s
    match dbOpt with
    | some si =>
      let s := env.ragLoadSchema si s
      let st := { st with schema_info := some si }
      ⟨logStep st 2 "Schema Retrieval (RAG)" "completed"
        ("Fetched and stored schema with " ++ toString si.tables.length ++ " table(s)"), s, [], none⟩
    | none =>
      let st := logStep st 2 "Schema Retrieval (RAG)" "error" "Failed to retrieve schema"
      ⟨{ st with final_response := some schemaFailResponse }, s, [], none⟩

/-- Python `str.split()` (split on whitespace runs, dropping empties). -/
def splitWsAux : List Char → List Char → List String
  | acc, [] => if acc.isEmpty then [] else [⟨acc.reverse⟩]
  | acc, c :: rest =>
    if isWsChar c then
      if acc.isEmpty then splitWsAux [] rest
      else (⟨acc.reverse⟩ : String) :: splitWsAux [] rest
    else splitWsAux (c :: acc) rest

def pySplitWs (s : String) : List String := splitWsAux [] s.data

/-- Python slice `s[:60]`. -/
def pySlice60 (s : String) : String := ⟨s.data.take 60⟩

/-- Embedding of `WorkflowAgent._generate_sql_node`.  Accessing `state["schema_info"]`
with the key absent raises `KeyError`; everything before that access (the
step log and the RAG context call) has already happened. -/
def generateSqlNode {σ : Type} (env : Env σ) (st : AgentState) (s : σ) : NodeOut σ :=
  let rc := st.retry_count
  let stepNum := 3 + rc * 2
  let st :=
    if 0 < rc then
      logStep st stepNum ("SQL Generation (Retry " ++ toString rc ++ ")") "in_progress"
        "Regenerating SQL query..."
    else
      logStep st stepNum "SQL Generation" "in_progress"
        "Generating SQL query from natural language..."
  let queryKeywords := pySplitWs (pyLower st.user_query)
  let (schemaContext, s) := env.ragFormatContext queryKeywords s
  match st.schema_info with
  | none => ⟨st, s, [], some PyErr.keyErrorSchemaInfo⟩
  | some si =>
    let (sqlOpt, s) := env.genSql st.user_query si st.conversation_history schemaContext s
    if truthyStr sqlOpt then
      let g := sqlOpt.getD ""
      let st := { st with sql_query := some g }
      ⟨logStep st stepNum "SQL Generation" "completed"
        ("Generated SQL query: " ++ pySlice60 g ++ "..."), s, [], none⟩
    else
      let st := logStep st stepNum "SQL Generation" "error" "Failed to generate SQL query"
      ⟨{ st with final_response := some genFailResponse }, s, [], none⟩

/-- Embedding of `WorkflowAgent._validate_sql_node`.  With `sql_query` absent the
guardrail call `validate_query(None)` raises (`None.upper()`). -/
def validateSqlNode {σ : Type} (env : Env σ) (st : AgentState) (s : σ) : NodeOut σ :=
  let stepNum := 3 + st.retry_count * 2 + 1
  let st := logStep st stepNum "SQL Validation (Input Guardrails)" "in_progress"
    "Validating SQL query for security and syntax..."
  match st.sql_query with
  | none => ⟨st, s, [], some PyErr.attrErrorNoneQuery⟩
  | some q =>
    match validate_query env.parse q with
    | (true, _) =>
      let st := logStep st stepNum "SQL Validation (Input Guardrails)" "completed"
        "SQL query passed validation"
      ⟨{ st with validation_error := none }, s, [Event.validated q true], none⟩
    | (false, errm) =>
      let st := logStep st stepNum "SQL Validation (Input Guardrails)" "error"
        ("Validation failed: " ++ pyShowOptStr errm)
      ⟨{ st with validation_error := errm }, s, [Event.validated q false], none⟩

/-- Routes of the `validate_sql` conditional edge. -/
inductive ValRoute
  | fix_query
  | execute_query
deriving DecidableEq

/-- The terminal message of an exhausted validation retry budget. -/
def valMsgFor (maxR : Nat) (e : Option String) : String :=
  "SQL validation failed after " ++ toString maxR ++ " attempts: " ++ pyShowOptStr e

/-- Embedding of `WorkflowAgent._should_retry_validation`.  The Python function body
both routes and, on an exhausted budget, assigns `final_response` into the
state dict it received; the pair returned here records both effects.  The
function is wired as a LangGraph conditional edge, and LangGraph discards
state mutations made inside routing functions, so the graph driver below
uses only the route component and drops the write. -/
def shouldRetryValidation (maxR : Nat) (st : AgentState) : AgentState × ValRoute :=
  if truthyStr st.validation_error then
    if st.retry_count < maxR then (st, ValRoute.fix_query)
    else ({ st with final_response := some (valMsgFor maxR st.validation_error) },
      ValRoute.execute_query)
  else (st, ValRoute.execute_query)

/-- Embedding of `WorkflowAgent._execute_query_node`. -/
def executeQueryNode {σ : Type} (maxR : Nat) (env : Env σ) (st : AgentState) (s : σ) :
    NodeOut σ :=
  if truthyStr st.validation_error ∧ maxR ≤ st.retry_count then ⟨st, s, [], none⟩
  else
    let stepNum := 3 + st.retry_count * 2 + 2
    let st := logStep st stepNum "Query Execution (DB Client Tool)" "in_progress"
      "Executing SQL query..."
    match st.sql_query with
    | none => ⟨st, s, [], some PyErr.typeErrorNoneSql⟩
    | some q =>
      let ((success, results, error), s) := env.execQuery q s
      if success ∧ results.isSome ∧ (results.bind QueryResults.columns).isSome then
        let rowCount := ((results.bind QueryResults.rows).getD []).length
        let st := logStep st stepNum "Query Execution (DB Client Tool)" "completed"
          ("Query executed successfully. Returned " ++ toString rowCount ++ " row(s)")
        ⟨{ st with query_results := results, execution_error := none }, s,
          [Event.executed q], none⟩
      else
        let st := logStep st stepNum "Query Execution (DB Client Tool)" "error"
          ("Execution failed: " ++ pyShowOptStr error)
        ⟨{ st with execution_error := error }, s, [Event.executed q], none⟩

/-- Routes of the `execute_query` conditional edge. -/
inductive ExecRoute
  | fix_query
  | generate_response
  | graph_end
deriving DecidableEq

/-- The terminal message of an exhausted execution retry budget. -/
def execMsgFor (maxR : Nat) (e : Option String) : String :=
  "Query execution failed after " ++ toString maxR ++ " attempts. Error: " ++ pyShowOptStr e

/-- Embedding of `WorkflowAgent._should_retry_execution`.  As with
`shouldRetryValidation`, the Python body assigns `final_response` on an
exhausted budget, but it runs as a LangGraph conditional edge, so that
write is discarded: only the route component takes effect in the graph. -/
def shouldRetryExecution (maxR : Nat) (st : AgentState) : AgentState × ExecRoute :=
  if truthyStr st.execution_error then
    if st.retry_count < maxR then (st, ExecRoute.fix_query)
    else ({ st with final_response := some (execMsgFor maxR st.execution_error) },
      ExecRoute.graph_end)
  else if truthyStr st.validation_error ∧ maxR ≤ st.retry_count then (st, ExecRoute.graph_end)
  else if st.query_results.isSome then (st, ExecRoute.generate_response)
  else (st, ExecRoute.graph_end)

/-- The repair prompt built by `WorkflowAgent._fix_query`. -/
def fixPrompt (failedQuery errText userQuery : String) : String :=
  "The following SQL query failed with error: " ++ errText ++
    "\n\nFailed Query:\n" ++ failedQuery ++
    "\n\nUser\x27s original question: " ++ userQuery ++
    "\n\nPlease generate a corrected SQL query that fixes the error. Only return the corrected SQL query, nothing else. Make sure it\x27s a valid PostgreSQL SELECT query."

/-- The markdown cleanup `_fix_query` applies to the model response. -/
def stripMarkdownSql (resp : String) : String :=
  let f := pyStrip resp
  let f :=
    if "```sql".data.isPrefixOf f.data then (⟨f.data.drop 6⟩ : String)
    else if "```".data.isPrefixOf f.data then (⟨f.data.drop 3⟩ : String)
    else f
  let f :=
    if "```".data.reverse.isPrefixOf f.data.reverse then (⟨f.data.take (f.data.length - 3)⟩ : String)
    else f
  pyStrip f

/-- Embedding of `WorkflowAgent._fix_query`: build the repair prompt, call the model,
clean up markdown; `none` when the call raised. -/
def fixQueryLLM {σ : Type} (env : Env σ) (failedQuery errText userQuery : String) (s : σ) :
    Option String × σ :=
  match env.fixLLM (fixPrompt failedQuery errText userQuery) s with
  | (Except.ok resp, s) => (some (stripMarkdownSql resp), s)
  | (Except.error _, s) => (none, s)

/-- The guard `if fixed_query and fixed_query != failed_query` of
`_fix_query_node` (Python truthiness plus `str`/`None` inequality). -/
def fixProgressed (fixedOpt failed : Option String) : Bool :=
  truthyStr fixedOpt &&
    (match fixedOpt, failed with
     | some f, some fl => !(decide (f = fl))
     | _, _ => true)

/-- Embedding of `WorkflowAgent._fix_query_node`.  The `trigger` argument is ghost
instrumentation naming the conditional edge that routed here; it only feeds
the trace event. -/
def fixQueryNode {σ : Type} (maxR : Nat) (env : Env σ) (trigger : RepairTrigger)
    (st : AgentState) (s : σ) : NodeOut σ :=
  let rc := st.retry_count
  let st := { st with retry_count := rc + 1 }
  let stepNum := 3 + rc * 2 + 2
  let nm := "Query Fix (Attempt " ++ toString (rc + 1) ++ "/" ++ toString maxR ++ ")"
  let st := logStep st stepNum nm "in_progress" "Attempting to fix SQL query..."
  let failed := st.sql_query
  let errOpt := if truthyStr st.execution_error then st.execution_error else st.validation_error
  let (fixedOpt, s) := fixQueryLLM env (pyShowOptStr failed) (pyShowOptStr errOpt) st.user_query s
  let progressed := fixProgressed fixedOpt failed
  if progressed then
    let st := { st with sql_query := fixedOpt }
    ⟨logStep st stepNum nm "completed"
      ("Generated fixed query: " ++ pySlice60 (fixedOpt.getD "") ++ "..."), s,
      [Event.repaired trigger failed], none⟩
  else
    ⟨logStep st stepNum nm "error" "Could not fix query", s,
      [Event.repaired trigger failed], none⟩

/-- Embedding of `WorkflowAgent._generate_response_node`.  `results["rows"]` with the
key absent raises `KeyError`. -/
def generateResponseNode {σ : Type} (env : Env σ) (st : AgentState) (s : σ) : NodeOut σ :=
  let stepNum := 3 + st.retry_count * 2 + 3
  let st := logStep st stepNum "Response Generation" "in_progress"
    "Generating natural language response..."
  match st.query_results with
  | none => ⟨st, s, [], none⟩
  | some res =>
    match res.rows, res.columns with
    | some rows, some cols =>
      let fallbackMsg := "I found " ++ toString rows.length ++ " result(s) for your query."
      let (resp, s) :=
        match env.respondLLM with
        | some rg =>
          match rg st.user_query cols rows st.sql_query st.conversation_history s with
          | (Except.ok r, s) => (r, s)
          | (Except.error _, s) => (fallbackMsg, s)
        | none => (fallbackMsg, s)
      let st := { st with final_response := some resp }
      ⟨logStep st stepNum "Response Generation" "completed"
        "Response generated successfully", s, [], none⟩
    | _, _ => ⟨st, s, [], some PyErr.keyErrorRows⟩

/-! ### The graph driver (`_build_graph` edges + `run`) -/

/-- The outcome of a workflow run: final (or at-raise) state, collaborator
state, ghost trace, and the uncaught exception if one escaped. -/
structure RunOut (σ : Type) where
  st : AgentState
  coll : σ
  trace : Trace
  err : Option RunErr

/-- The `validate_sql → {fix_query | execute_query} → ... → validate_sql`
loop of the graph, with fuel.  `fix_query` is only entered when
`retry_count < max_retries` and increments `retry_count`, so fuel
`max_retries + 1` is enough (proved below).  The conditional-edge
functions `_should_retry_validation` and `_should_retry_execution` run as
LangGraph routing functions, whose state mutations LangGraph discards:
only the returned route label takes effect, so the next node receives the
state produced by the previous node, and the `final_response` assignments
those functions make on exhausted budgets never persist. -/
def loopFromValidate {σ : Type} (maxR : Nat) (env : Env σ) :
    Nat → AgentState → σ → RunOut σ
  | 0, st, s => ⟨st, s, [], some RunErr.fuel⟩
  | fuel + 1, st, s =>
    let n := validateSqlNode env st s
    match n.err with
    | some e => ⟨n.st, n.coll, n.events, some (RunErr.py e)⟩
    | none =>
      match (shouldRetryValidation maxR n.st).snd with
      | ValRoute.fix_query =>
        let f := fixQueryNode maxR env RepairTrigger.fromValidation n.st n.coll
        let r := loopFromValidate maxR env fuel f.st f.coll
        ⟨r.st, r.coll, n.events ++ f.events ++ r.trace, r.err⟩
      | ValRoute.execute_query =>
        let x := executeQueryNode maxR env n.st n.coll
        match x.err with
        | some e => ⟨x.st, x.coll, n.events ++ x.events, some (RunErr.py e)⟩
        | none =>
          match (shouldRetryExecution maxR x.st).snd with
          | ExecRoute.fix_query =>
            let f := fixQueryNode maxR env RepairTrigger.fromExecution x.st x.coll
            let r := loopFromValidate maxR env fuel f.st f.coll
            ⟨r.st, r.coll, n.events ++ x.events ++ f.events ++ r.trace, r.err⟩
          | ExecRoute.generate_response =>
            let g := generateResponseNode env x.st x.coll
            match g.err with
            | some e => ⟨g.st, g.coll, n.events ++ x.events ++ g.events, some (RunErr.py e)⟩
            | none => ⟨g.st, g.coll, n.events ++ x.events ++ g.events, none⟩
          | ExecRoute.graph_end => ⟨x.st, x.coll, n.events ++ x.events, none⟩

/-- Embedding of `WorkflowAgent.run`: build the initial state and follow the graph of
`_build_graph` (classify → [route] → retrieve_schema → generate_sql →
validate_sql loop). -/
def runWorkflow {σ : Type} (maxR : Nat) (env : Env σ) (user_query : String)
    (history : List ChatMsg) (s : σ) : RunOut σ :=
  let st0 : AgentState := { user_query := user_query, conversation_history := history }
  let c := classifyNode env st0 s
  if shouldContinueToSql c.st then
    let r1 := retrieveSchemaNode env c.st c.coll
    let g := generateSqlNode env r1.st r1.coll
    match g.err with
    | some e => ⟨g.st, g.coll, c.events ++ r1.events ++ g.events, some (RunErr.py e)⟩
    | none =>
      let r := loopFromValidate maxR env (maxR + 1) g.st g.coll
      ⟨r.st, r.coll, c.events ++ r1.events ++ g.events ++ r.trace, r.err⟩
  else ⟨c.st, c.coll, c.events, none⟩

/-! ### Trace observables -/

/-- Number of `fix_query` (Repair) transitions in a trace. -/
def countRepairs : Trace → Nat
  | [] => 0
  | Event.repaired _ _ :: rest => countRepairs rest + 1
  | _ :: rest => countRepairs rest

/-- Number of Repair transitions routed from a given conditional edge. -/
def countRepairsFrom (t : RepairTrigger) : Trace → Nat
  | [] => 0
  | Event.repaired t2 _ :: rest => (if t2 = t then 1 else 0) + countRepairsFrom t rest
  | _ :: rest => countRepairsFrom t rest

/-- Every `executed sql` event is immediately preceded by a
`validated sql true` event for the same string: the SQL reaching the
executor passed validation, unchanged since validation. -/
def execsGuardedFrom (prev : Option Event) : Trace → Bool
  | [] => true
  | e :: rest =>
    (match e with
     | Event.executed q => decide (prev = some (Event.validated q true))
     | _ => true) && execsGuardedFrom (some e) rest

def execsGuarded (tr : Trace) : Bool := execsGuardedFrom none tr

/-! ### Concrete environments for counterexamples and witnesses -/

/-- A concrete stateless environment (collaborator state `Unit`) whose
oracles return fixed values. -/
def unitEnv (ragSchema dbSchema : Option SchemaInfo) (genResult : Option String)
    (execResult : Bool × Option QueryResults × Option String)
    (fixResult : Except Unit String) : Env Unit :=
  { parse := parseOneSelect
    ragGetSchema := fun s => (ragSchema, s)
    dbFetchSchema := fun s => (dbSchema, s)
    ragLoadSchema := fun _ s => s
    ragFormatContext := fun _ s => ("No schema information available.", s)
    classifyLLM := none
    genSql := fun _ _ _ _ s => (genResult, s)
    execQuery := fun _ s => (execResult, s)
    fixLLM := fun _ s => (fixResult, s)
    respondLLM := none }

/-- An empty-but-truthy schema dict (`{"tables": []}`). -/
def emptySchema : SchemaInfo := ⟨[]⟩

/-- Environment where neither the RAG nor the database yields a schema. -/
def envNoSchema : Env Unit :=
  unitEnv none none (some "SELECT 1") (true, some ⟨some ["c"], some []⟩, none) (Except.ok "SELECT 1")

/-- Environment for the stale-execution-error scenario: generation yields a
valid SELECT, execution always fails with `E1`, repair yields a forbidden
DROP statement. -/
def envStaleExec : Env Unit :=
  unitEnv (some emptySchema) none (some "SELECT A")
    (false, none, some "E1") (Except.ok "DROP TABLE T")

/-- Environment for the no-progress-repair scenario: generation yields a
forbidden DROP statement and repair always returns it unchanged. -/
def envNoProgress : Env Unit :=
  unitEnv (some emptySchema) none (some "DROP X")
    (false, none, some "E1") (Except.ok "DROP X")

/-- Environment for a clean success run. -/
def envHappy : Env Unit :=
  unitEnv (some emptySchema) none (some "SELECT name FROM products")
    (true, some ⟨some ["name"], some [["a"], ["b"], ["c"]]⟩, none)
    (Except.ok "SELECT name FROM products")

/-- A stored results dict is well-shaped: both `rows` and `columns` keys
are present (what `_generate_response_node` needs not to raise). -/
def qrGood (o : Option QueryResults) : Prop :=
  ∀ res, o = some res → res.rows.isSome = true ∧ res.columns.isSome = true

/-- The executor only reports success-with-columns together with rows
(which is what `PostgresClient.execute_query` does: its success results
with `columns` always carry `rows`). -/
def execWellShaped {σ : Type} (env : Env σ) : Prop :=
  ∀ q s, ((env.execQuery q s).fst.1 = true ∧ (env.execQuery q s).fst.2.1.isSome = true ∧
      ((env.execQuery q s).fst.2.1.bind QueryResults.columns).isSome = true) →
    ((env.execQuery q s).fst.2.1.bind QueryResults.rows).isSome = true

/-- A repair collaborator that makes no progress on the failing query `g`:
`_fix_query` always returns `None` or `g` itself. -/
def noProgressFixOn {σ : Type} (env : Env σ) (g : String) : Prop :=
  ∀ er uq s', (fixQueryLLM env g er uq s').fst = none ∨
    (fixQueryLLM env g er uq s').fst = some g

/-- A parser stub yielding two SELECT statements. -/
def parseTwoSelects : SqlParse :=
  fun _ => Except.ok [[⟨TokKind.dml, "SELECT"⟩], [⟨TokKind.dml, "SELECT"⟩]]

/-- Modelled from the claim's words: the input contains `w` as a separate
whole word (word-boundary occurrence on the lowercased input).  This is
the claim-side reading of "containing a greeting word"; the code's reading
is plain substring containment. -/
def specContainsWord (w q : String) : Bool :=
  hasWordFrom (pyLower w).data none (pyLower q).data

example : (validate_query parseOneSelect "SELECT name FROM products").fst = true := by decide

example : (validate_query parseOneSelect "SELECT * FROM grasp_records").fst = false := by decide

example : (check_sql_injection "select 1; drop table x").fst = false := by decide

example : hasWholeWord "DROP" (pyUpper "select 1; drop table x") = true := by decide

example :
    (runWorkflow 3 envHappy "show me products" [] ()).st.final_response =
      some "I found 3 result(s) for your query." := by decide

example : (runWorkflow 3 envHappy "show me products" [] ()).err = none := by decide

example :
    (runWorkflow 3 envNoSchema "show me products" [] ()).err =
      some (RunErr.py PyErr.keyErrorSchemaInfo) := by decide

example :
    (runWorkflow 1 envStaleExec "show me products" [] ()).st.final_response = none := by decide

example :
    truthyStr (runWorkflow 1 envStaleExec "show me products" [] ()).st.execution_error =
      true := by decide

example :
    (runWorkflow 3 envNoProgress "show me products" [] ()).st.retry_count = 3 := by decide

example :
    countRepairs (runWorkflow 3 envNoProgress "show me products" [] ()).trace = 3 := by decide

/-! ### Toolkit lemmas -/

theorem logStep_user_query (st : AgentState) (n : Nat) (a b c : String) :
    (logStep st n a b c).user_query = st.user_query := rfl

theorem logStep_sql_query (st : AgentState) (n : Nat) (a b c : String) :
    (logStep st n a b c).sql_query = st.sql_query := rfl

theorem logStep_retry_count (st : AgentState) (n : Nat) (a b c : String) :
    (logStep st n a b c).retry_count = st.retry_count := rfl

theorem logStep_validation_error (st : AgentState) (n : Nat) (a b c : String) :
    (logStep st n a b c).validation_error = st.validation_error := rfl

theorem logStep_execution_error (st : AgentState) (n : Nat) (a b c : String) :
    (logStep st n a b c).execution_error = st.execution_error := rfl

theorem logStep_query_results (st : AgentState) (n : Nat) (a b c : String) :
    (logStep st n a b c).query_results = st.query_results := rfl

theorem logStep_final_response (st : AgentState) (n : Nat) (a b c : String) :
    (logStep st n a b c).final_response = st.final_response := rfl

theorem logStep_schema_info (st : AgentState) (n : Nat) (a b c : String) :
    (logStep st n a b c).schema_info = st.schema_info := rfl

theorem logStep_conversation_history (st : AgentState) (n : Nat) (a b c : String) :
    (logStep st n a b c).conversation_history = st.conversation_history := rfl

/-- A string with nonempty data is Python-truthy. -/
theorem truthyStr_of_data_ne (s : String) (h : s.data ≠ []) : truthyStr (some s) = true := by
  simp only [truthyStr, Bool.not_eq_true']
  cases hd : s.data with
  | nil => exact absurd hd h
  | cons c l => simp [List.isEmpty]

/-- A left-append with a nonempty literal is Python-truthy. -/
theorem truthyStr_append_left (a b : String) (h : a.data ≠ []) :
    truthyStr (some (a ++ b)) = true := by
  apply truthyStr_of_data_ne
  rw [String.data_append]
  intro hc
  exact h (List.append_eq_nil.mp hc).1

theorem violationKwMsg_truthy (kw : String) : truthyStr (some (violationKwMsg kw)) = true := by
  unfold violationKwMsg
  rw [String.append_assoc]
  exact truthyStr_append_left "Security violation: \x27" _ (by decide)

theorem forbiddenOpMsg_truthy (kw : String) : truthyStr (some (forbiddenOpMsg kw)) = true := by
  unfold forbiddenOpMsg
  rw [String.append_assoc]
  exact truthyStr_append_left "Forbidden operation: " _ (by decide)

theorem nonSelectMsg_truthy (k : String) : truthyStr (some (nonSelectMsg k)) = true := by
  unfold nonSelectMsg
  exact truthyStr_append_left "Only SELECT queries are allowed. Found: " k (by decide)

/-- Lemma: `check_sql_injection` only fails with a Python-truthy error. -/
theorem check_sql_injection_ok_or_truthy (q : String) :
    (check_sql_injection q).fst = true ∨ truthyStr (check_sql_injection q).snd = true := by
  simp only [check_sql_injection]
  split
  · next kw _ => right; exact violationKwMsg_truthy kw
  · split
    · right; decide
    · left; rfl

/-- The statement loop of `validate_select_only` only fails with a
Python-truthy error. -/
theorem selectOnlyStmts_ok_or_truthy (n : Nat) (u : String) :
    ∀ (l : List SqlStmt), (selectOnlyStmts n u l).fst = true ∨
      truthyStr (selectOnlyStmts n u l).snd = true := by
  intro l
  induction l with
  | nil => left; rfl
  | cons stmt rest ih =>
    simp only [selectOnlyStmts]
    split
    · split
      · next kw _ => right; exact forbiddenOpMsg_truthy kw
      · split
        · right; decide
        · exact ih
    · next k _ =>
      split
      · right; exact nonSelectMsg_truthy k
      · split
        · right; decide
        · exact ih

/-- Lemma: `validate_select_only` only fails with a Python-truthy error. -/
theorem validate_select_only_ok_or_truthy (pr : Except String (List SqlStmt)) (q : String) :
    (validate_select_only pr q).fst = true ∨
      truthyStr (validate_select_only pr q).snd = true := by
  unfold validate_select_only
  split
  · next e => right; exact truthyStr_append_left "Invalid SQL syntax: " e (by decide)
  · right; decide
  · exact selectOnlyStmts_ok_or_truthy _ _ _

/-- Lemma: `validate_query` only fails with a Python-truthy error. -/
theorem validate_query_ok_or_truthy (parse : SqlParse) (q : String) :
    (validate_query parse q).fst = true ∨ truthyStr (validate_query parse q).snd = true := by
  unfold validate_query
  split
  · next e heq =>
    right
    have h1 := check_sql_injection_ok_or_truthy q
    rw [heq] at h1
    simpa using h1
  · split
    · next e2 heq2 =>
      right
      have h1 := validate_select_only_ok_or_truthy (parse q) q
      rw [heq2] at h1
      simpa using h1
    · left; rfl

/-- Lemma: `validate_query` reports a Python-truthy error whenever it fails: the
guardrail never fails silently. -/
theorem validate_query_false_truthy (parse : SqlParse) (q : String)
    (h : (validate_query parse q).fst = false) :
    truthyStr (validate_query parse q).snd = true := by
  rcases validate_query_ok_or_truthy parse q with h1 | h1
  · rw [h] at h1; exact absurd h1 (by simp)
  · exact h1

/-! ### Node characterization lemmas -/

/-- Everything the run-level inductions need to know about
`_validate_sql_node`: which fields it preserves, and its three outcomes
(missing query raises; pass clears `validation_error` and emits a positive
`validated` event; fail stores the guardrail error and emits a negative
one). -/
theorem validateSqlNode_spec {σ : Type} (env : Env σ) (st : AgentState) (s : σ) :
    (validateSqlNode env st s).coll = s ∧
    (validateSqlNode env st s).st.retry_count = st.retry_count ∧
    (validateSqlNode env st s).st.sql_query = st.sql_query ∧
    (validateSqlNode env st s).st.execution_error = st.execution_error ∧
    (validateSqlNode env st s).st.query_results = st.query_results ∧
    (validateSqlNode env st s).st.final_response = st.final_response ∧
    (validateSqlNode env st s).st.user_query = st.user_query ∧
    ((st.sql_query = none ∧ (validateSqlNode env st s).err = some PyErr.attrErrorNoneQuery ∧
        (validateSqlNode env st s).events = []) ∨
      (∃ q, st.sql_query = some q ∧ (validateSqlNode env st s).err = none ∧
        (((validate_query env.parse q).fst = true ∧
            (validateSqlNode env st s).events = [Event.validated q true] ∧
            (validateSqlNode env st s).st.validation_error = none) ∨
          ((validate_query env.parse q).fst = false ∧
            (validateSqlNode env st s).events = [Event.validated q false] ∧
            (validateSqlNode env st s).st.validation_error = (validate_query env.parse q).snd)))) := by
  unfold validateSqlNode
  rcases hq : st.sql_query with _ | q
  · simp [logStep, hq]
  · simp only [logStep_sql_query, hq]
    rcases hv : validate_query env.parse q with ⟨b, e⟩
    rcases b with _ | _
    · simp [logStep, hq, hv]
    · simp [logStep, hq, hv]

/-- Characterization of `_fix_query_node`: it increments `retry_count` by
one, emits exactly one `repaired` event, preserves the error fields, and
replaces `sql_query` exactly when the cleaned repair output is truthy and
differs from the failing query. -/
theorem fixQueryNode_spec {σ : Type} (maxR : Nat) (env : Env σ) (tg : RepairTrigger)
    (st : AgentState) (s : σ) :
    (fixQueryNode maxR env tg st s).err = none ∧
    (fixQueryNode maxR env tg st s).events = [Event.repaired tg st.sql_query] ∧
    (fixQueryNode maxR env tg st s).st.retry_count = st.retry_count + 1 ∧
    (fixQueryNode maxR env tg st s).st.validation_error = st.validation_error ∧
    (fixQueryNode maxR env tg st s).st.execution_error = st.execution_error ∧
    (fixQueryNode maxR env tg st s).st.query_results = st.query_results ∧
    (fixQueryNode maxR env tg st s).st.final_response = st.final_response ∧
    (fixQueryNode maxR env tg st s).st.user_query = st.user_query ∧
    (∃ fx s2,
      fixQueryLLM env (pyShowOptStr st.sql_query)
        (pyShowOptStr (if truthyStr st.execution_error then st.execution_error
          else st.validation_error)) st.user_query s = (fx, s2) ∧
      ((fixProgressed fx st.sql_query = true ∧
          (fixQueryNode maxR env tg st s).st.sql_query = fx) ∨
        (fixProgressed fx st.sql_query = false ∧
          (fixQueryNode maxR env tg st s).st.sql_query = st.sql_query))) := by
  unfold fixQueryNode
  rcases hfx : fixQueryLLM env (pyShowOptStr st.sql_query)
      (pyShowOptStr (if truthyStr st.execution_error then st.execution_error
        else st.validation_error)) st.user_query s with ⟨fx, s2⟩
  by_cases hp : fixProgressed fx st.sql_query
  · refine ⟨?_, ?_, ?_, ?_, ?_, ?_, ?_, ?_, fx, s2, ?_, Or.inl ⟨hp, ?_⟩⟩ <;>
      simp [logStep, hfx, hp]
  · refine ⟨?_, ?_, ?_, ?_, ?_, ?_, ?_, ?_, fx, s2, ?_, Or.inr ⟨by simpa using hp, ?_⟩⟩ <;>
      simp [logStep, hfx, hp]

/-- Characterization of `_execute_query_node`: with a truthy validation
error and an exhausted budget it is the identity (no event); otherwise it
calls the executor on the current `sql_query` (raising when that is
absent), emitting exactly one `executed` event. -/
theorem executeQueryNode_spec {σ : Type} (maxR : Nat) (env : Env σ) (st : AgentState) (s : σ) :
    ((truthyStr st.validation_error = true ∧ maxR ≤ st.retry_count ∧
        executeQueryNode maxR env st s = ⟨st, s, [], none⟩) ∨
      (¬(truthyStr st.validation_error = true ∧ maxR ≤ st.retry_count) ∧
        (executeQueryNode maxR env st s).st.retry_count = st.retry_count ∧
        (executeQueryNode maxR env st s).st.sql_query = st.sql_query ∧
        (executeQueryNode maxR env st s).st.validation_error = st.validation_error ∧
        (executeQueryNode maxR env st s).st.final_response = st.final_response ∧
        (executeQueryNode maxR env st s).st.user_query = st.user_query ∧
        ((st.sql_query = none ∧ (executeQueryNode maxR env st s).err = some PyErr.typeErrorNoneSql ∧
            (executeQueryNode maxR env st s).events = []) ∨
          (∃ q, st.sql_query = some q ∧ (executeQueryNode maxR env st s).err = none ∧
            (executeQueryNode maxR env st s).events = [Event.executed q] ∧
            (∃ su res er s2, env.execQuery q s = ((su, res, er), s2) ∧
              (executeQueryNode maxR env st s).coll = s2 ∧
              (((su = true ∧ res.isSome ∧ (res.bind QueryResults.columns).isSome) ∧
                  (executeQueryNode maxR env st s).st.query_results = res ∧
                  (executeQueryNode maxR env st s).st.execution_error = none) ∨
                (¬(su = true ∧ res.isSome ∧ (res.bind QueryResults.columns).isSome) ∧
                  (executeQueryNode maxR env st s).st.query_results = st.query_results ∧
                  (executeQueryNode maxR env st s).st.execution_error = er))))))) := by
  unfold executeQueryNode
  by_cases hg : truthyStr st.validation_error = true ∧ maxR ≤ st.retry_count
  · left
    refine ⟨hg.1, hg.2, ?_⟩
    simp [hg]
  · right
    refine ⟨hg, ?_⟩
    rcases hq : st.sql_query with _ | q
    · simp [logStep, hg, hq]
    · simp only [hg, if_false, logStep_sql_query, hq]
      rcases hx : env.execQuery q s with ⟨⟨su, res, er⟩, s2⟩
      by_cases hok : su = true ∧ res.isSome ∧ (res.bind QueryResults.columns).isSome
      · refine ⟨?_, ?_, ?_, ?_, ?_, Or.inr ⟨q, rfl, ?_, ?_, su, res, er, s2, ?_, ?_,
          Or.inl ⟨hok, ?_, ?_⟩⟩⟩ <;> simp [logStep, hq, hx, hok]
      · refine ⟨?_, ?_, ?_, ?_, ?_, Or.inr ⟨q, rfl, ?_, ?_, su, res, er, s2, ?_, ?_,
          Or.inr ⟨hok, ?_, ?_⟩⟩⟩ <;> simp [logStep, hq, hx, hok]

/-- Characterization of `_generate_response_node`: it preserves the error
fields and `retry_count`, emits no events, and either leaves the state
alone (no results), sets some final response, or raises `KeyError` when
the results dict lacks `rows` or `columns`. -/
theorem generateResponseNode_spec {σ : Type} (env : Env σ) (st : AgentState) (s : σ) :
    (generateResponseNode env st s).events = [] ∧
    (generateResponseNode env st s).st.retry_count = st.retry_count ∧
    (generateResponseNode env st s).st.validation_error = st.validation_error ∧
    (generateResponseNode env st s).st.execution_error = st.execution_error ∧
    (generateResponseNode env st s).st.sql_query = st.sql_query ∧
    ((st.query_results = none ∧ (generateResponseNode env st s).err = none ∧
        (generateResponseNode env st s).st.final_response = st.final_response) ∨
      (∃ res, st.query_results = some res ∧
        ((∃ rows cols, res.rows = some rows ∧ res.columns = some cols ∧
            (generateResponseNode env st s).err = none ∧
            (∃ m, (generateResponseNode env st s).st.final_response = some m)) ∨
          ((res.rows = none ∨ res.columns = none) ∧
            (generateResponseNode env st s).err = some PyErr.keyErrorRows)))) := by
  unfold generateResponseNode
  rcases hr : st.query_results with _ | res
  · simp [logStep, hr]
  · rcases hrows : res.rows with _ | rows
    · simp only [logStep_query_results, hr, hrows]
      refine ⟨?_, ?_, ?_, ?_, ?_, Or.inr ⟨res, rfl, Or.inr ⟨Or.inl hrows, ?_⟩⟩⟩ <;>
        simp [logStep, hr, hrows]
    · rcases hcols : res.columns with _ | cols
      · simp only [logStep_query_results, hr, hrows, hcols]
        refine ⟨?_, ?_, ?_, ?_, ?_, Or.inr ⟨res, rfl, Or.inr ⟨Or.inr hcols, ?_⟩⟩⟩ <;>
          simp [logStep, hr, hrows, hcols]
      · rcases hrg : env.respondLLM with _ | rg
        · refine ⟨?_, ?_, ?_, ?_, ?_, Or.inr ⟨res, rfl, Or.inl ⟨rows, cols, hrows, hcols, ?_,
            "I found " ++ toString rows.length ++ " result(s) for your query.", ?_⟩⟩⟩ <;>
            simp [logStep, hr, hrows, hcols, hrg]
        · rcases hcall : rg st.user_query cols rows st.sql_query st.conversation_history s with ⟨cr, s2⟩
          rcases cr with e | r
          · refine ⟨?_, ?_, ?_, ?_, ?_, Or.inr ⟨res, rfl, Or.inl ⟨rows, cols, hrows, hcols, ?_,
              "I found " ++ toString rows.length ++ " result(s) for your query.", ?_⟩⟩⟩ <;>
              simp [logStep, hr, hrows, hcols, hrg, hcall]
          · refine ⟨?_, ?_, ?_, ?_, ?_, Or.inr ⟨res, rfl, Or.inl ⟨rows, cols, hrows, hcols, ?_,
              r, ?_⟩⟩⟩ <;>
              simp [logStep, hr, hrows, hcols, hrg, hcall]

/-- Fields `_classify_query_node` never touches, and its silence: it emits
no trace events and cannot raise. -/
theorem classifyNode_spec {σ : Type} (env : Env σ) (st : AgentState) (s : σ) :
    (classifyNode env st s).events = [] ∧
    (classifyNode env st s).err = none ∧
    (classifyNode env st s).st.retry_count = st.retry_count ∧
    (classifyNode env st s).st.sql_query = st.sql_query ∧
    (classifyNode env st s).st.validation_error = st.validation_error ∧
    (classifyNode env st s).st.execution_error = st.execution_error ∧
    (classifyNode env st s).st.query_results = st.query_results ∧
    (classifyNode env st s).st.schema_info = st.schema_info ∧
    (classifyNode env st s).st.user_query = st.user_query ∧
    (classifyNode env st s).st.conversation_history = st.conversation_history := by
  unfold classifyNode
  rcases hc : env.classifyLLM with _ | cls
  · by_cases hg : classify_query st.user_query = "greeting" <;>
      by_cases hq : classify_query st.user_query = "general_question" <;>
        simp [logStep, hg, hq]
  · rcases hcall : cls st.user_query (env.ragGetSchema s).1 st.conversation_history
        (env.ragGetSchema s).2 with ⟨cr, s2⟩
    rcases cr with e | ⟨needs, reason⟩
    · by_cases hg : classify_query st.user_query = "greeting" <;>
        by_cases hq : classify_query st.user_query = "general_question" <;>
          simp [logStep, hcall, hg, hq]
    · rcases needs with _ | _ <;> simp [logStep, hcall]

/-- With no model classifier wired in and the fallback heuristic choosing
the SQL route, `_classify_query_node` routes to the SQL workflow without
touching `final_response`. -/
theorem classifyNode_fallback_sql {σ : Type} (env : Env σ) (st : AgentState) (s : σ)
    (h1 : env.classifyLLM = none) (h2 : classify_query st.user_query = "sql_query") :
    (classifyNode env st s).st.query_type = some "sql_query" ∧
    (classifyNode env st s).st.final_response = st.final_response ∧
    (classifyNode env st s).coll = s := by
  unfold classifyNode
  simp [h1, h2, logStep]

/-- Characterization of `_retrieve_schema_node`: no events, never raises,
preserves the loop-relevant fields, and either stores a schema (leaving
`final_response` alone) or stores none and sets the schema-failure
response. -/
theorem retrieveSchemaNode_spec {σ : Type} (env : Env σ) (st : AgentState) (s : σ) :
    (retrieveSchemaNode env st s).events = [] ∧
    (retrieveSchemaNode env st s).err = none ∧
    (retrieveSchemaNode env st s).st.retry_count = st.retry_count ∧
    (retrieveSchemaNode env st s).st.sql_query = st.sql_query ∧
    (retrieveSchemaNode env st s).st.validation_error = st.validation_error ∧
    (retrieveSchemaNode env st s).st.execution_error = st.execution_error ∧
    (retrieveSchemaNode env st s).st.query_results = st.query_results ∧
    (retrieveSchemaNode env st s).st.user_query = st.user_query ∧
    (retrieveSchemaNode env st s).st.conversation_history = st.conversation_history ∧
    ((∃ si, (retrieveSchemaNode env st s).st.schema_info = some si ∧
        (retrieveSchemaNode env st s).st.final_response = st.final_response) ∨
      ((retrieveSchemaNode env st s).st.schema_info = st.schema_info ∧
        (retrieveSchemaNode env st s).st.final_response = some schemaFailResponse)) := by
  unfold retrieveSchemaNode
  rcases h1 : env.ragGetSchema s with ⟨so, s1⟩
  rcases so with _ | si
  · rcases h2 : env.dbFetchSchema s1 with ⟨dbo, s2⟩
    rcases dbo with _ | si
    · refine ⟨?_, ?_, ?_, ?_, ?_, ?_, ?_, ?_, ?_, Or.inr ⟨?_, ?_⟩⟩ <;> simp [logStep, h1, h2]
    · refine ⟨?_, ?_, ?_, ?_, ?_, ?_, ?_, ?_, ?_, Or.inl ⟨si, ?_, ?_⟩⟩ <;> simp [logStep, h1, h2]
  · refine ⟨?_, ?_, ?_, ?_, ?_, ?_, ?_, ?_, ?_, Or.inl ⟨si, ?_, ?_⟩⟩ <;> simp [logStep, h1]

/-- When the RAG cache yields a schema, `_retrieve_schema_node` stores it. -/
theorem retrieveSchemaNode_rag {σ : Type} (env : Env σ) (st : AgentState) (s : σ)
    (si : SchemaInfo) (s1 : σ) (h1 : env.ragGetSchema s = (some si, s1)) :
    (retrieveSchemaNode env st s).st.schema_info = some si ∧
    (retrieveSchemaNode env st s).st.final_response = st.final_response ∧
    (retrieveSchemaNode env st s).coll = s1 := by
  unfold retrieveSchemaNode
  simp [h1, logStep]

/-- Characterization of `_generate_sql_node`: no events; with the schema
key absent it raises `KeyError` (after logging the generation step);
otherwise it either stores the truthy generated SQL or sets the
generation-failure response. -/
theorem generateSqlNode_spec {σ : Type} (env : Env σ) (st : AgentState) (s : σ) :
    (generateSqlNode env st s).events = [] ∧
    (generateSqlNode env st s).st.retry_count = st.retry_count ∧
    (generateSqlNode env st s).st.validation_error = st.validation_error ∧
    (generateSqlNode env st s).st.execution_error = st.execution_error ∧
    (generateSqlNode env st s).st.query_results = st.query_results ∧
    (generateSqlNode env st s).st.user_query = st.user_query ∧
    (generateSqlNode env st s).st.conversation_history = st.conversation_history ∧
    ((st.schema_info = none ∧ (generateSqlNode env st s).err = some PyErr.keyErrorSchemaInfo ∧
        (generateSqlNode env st s).st.sql_query = st.sql_query) ∨
      (∃ si ctx s1 go s2, st.schema_info = some si ∧
        env.ragFormatContext (pySplitWs (pyLower st.user_query)) s = (ctx, s1) ∧
        env.genSql st.user_query si st.conversation_history ctx s1 = (go, s2) ∧
        (generateSqlNode env st s).coll = s2 ∧
        ((truthyStr go = true ∧ (generateSqlNode env st s).err = none ∧
            (generateSqlNode env st s).st.sql_query = go ∧
            (generateSqlNode env st s).st.final_response = st.final_response) ∨
          (truthyStr go = false ∧ (generateSqlNode env st s).err = none ∧
            (generateSqlNode env st s).st.sql_query = st.sql_query ∧
            (generateSqlNode env st s).st.final_response = some genFailResponse)))) := by
  unfold generateSqlNode
  rcases hctx : env.ragFormatContext (pySplitWs (pyLower st.user_query)) s with ⟨ctx, s1⟩
  rcases hsi : st.schema_info with _ | si
  · by_cases hrc : 0 < st.retry_count <;> simp [logStep, hctx, hsi, hrc]
  · rcases hgen : env.genSql st.user_query si st.conversation_history ctx s1 with ⟨go, s2⟩
    rcases go with _ | g
    · by_cases hrc : 0 < st.retry_count <;>
        · refine ⟨?_, ?_, ?_, ?_, ?_, ?_, ?_, Or.inr ⟨si, ctx, s1, none, s2, ?_, ?_, ?_, ?_,
            Or.inr ⟨?_, ?_, ?_, ?_⟩⟩⟩ <;> simp [logStep, hctx, hgen, hrc, hsi, truthyStr]
    · by_cases hg : g.data.isEmpty
      · by_cases hrc : 0 < st.retry_count <;>
          · refine ⟨?_, ?_, ?_, ?_, ?_, ?_, ?_, Or.inr ⟨si, ctx, s1, some g, s2, ?_, ?_, ?_, ?_,
              Or.inr ⟨?_, ?_, ?_, ?_⟩⟩⟩ <;> simp [logStep, hctx, hgen, hrc, hsi, truthyStr, hg]
      · by_cases hrc : 0 < st.retry_count <;>
          · refine ⟨?_, ?_, ?_, ?_, ?_, ?_, ?_, Or.inr ⟨si, ctx, s1, some g, s2, ?_, ?_, ?_, ?_,
              Or.inl ⟨?_, ?_, ?_, ?_⟩⟩⟩ <;> simp [logStep, hctx, hgen, hrc, hsi, truthyStr, hg]

/-- Characterization of `_should_retry_validation`. -/
theorem shouldRetryValidation_spec (maxR : Nat) (st : AgentState) :
    (truthyStr st.validation_error = true ∧ st.retry_count < maxR ∧
        shouldRetryValidation maxR st = (st, ValRoute.fix_query)) ∨
      (truthyStr st.validation_error = true ∧ maxR ≤ st.retry_count ∧
        shouldRetryValidation maxR st =
          ({ st with final_response := some (valMsgFor maxR st.validation_error) },
            ValRoute.execute_query)) ∨
      (truthyStr st.validation_error = false ∧
        shouldRetryValidation maxR st = (st, ValRoute.execute_query)) := by
  unfold shouldRetryValidation
  by_cases ht : truthyStr st.validation_error
  · by_cases hlt : st.retry_count < maxR
    · exact Or.inl ⟨ht, hlt, by simp [ht, hlt]⟩
    · exact Or.inr (Or.inl ⟨ht, Nat.le_of_not_lt hlt, by simp [ht, hlt]⟩)
  · exact Or.inr (Or.inr ⟨by simpa using ht, by simp [ht]⟩)

/-- Characterization of `_should_retry_execution`. -/
theorem shouldRetryExecution_spec (maxR : Nat) (st : AgentState) :
    (truthyStr st.execution_error = true ∧ st.retry_count < maxR ∧
        shouldRetryExecution maxR st = (st, ExecRoute.fix_query)) ∨
      (truthyStr st.execution_error = true ∧ maxR ≤ st.retry_count ∧
        shouldRetryExecution maxR st =
          ({ st with final_response := some (execMsgFor maxR st.execution_error) },
            ExecRoute.graph_end)) ∨
      (truthyStr st.execution_error = false ∧ truthyStr st.validation_error = true ∧
        maxR ≤ st.retry_count ∧ shouldRetryExecution maxR st = (st, ExecRoute.graph_end)) ∨
      (truthyStr st.execution_error = false ∧
        ¬(truthyStr st.validation_error = true ∧ maxR ≤ st.retry_count) ∧
        st.query_results.isSome = true ∧
        shouldRetryExecution maxR st = (st, ExecRoute.generate_response)) ∨
      (truthyStr st.execution_error = false ∧
        ¬(truthyStr st.validation_error = true ∧ maxR ≤ st.retry_count) ∧
        st.query_results.isSome = false ∧
        shouldRetryExecution maxR st = (st, ExecRoute.graph_end)) := by
  unfold shouldRetryExecution
  by_cases ht : truthyStr st.execution_error
  · by_cases hlt : st.retry_count < maxR
    · exact Or.inl ⟨ht, hlt, by simp [ht, hlt]⟩
    · exact Or.inr (Or.inl ⟨ht, Nat.le_of_not_lt hlt, by simp [ht, hlt]⟩)
  · by_cases hv : truthyStr st.validation_error = true ∧ maxR ≤ st.retry_count
    · exact Or.inr (Or.inr (Or.inl ⟨by simpa using ht, hv.1, hv.2, by simp [ht, hv]⟩))
    · by_cases hq : st.query_results.isSome
      · exact Or.inr (Or.inr (Or.inr (Or.inl ⟨by simpa using ht, hv, hq, by simp [ht, hv, hq]⟩)))
      · exact Or.inr (Or.inr (Or.inr (Or.inr ⟨by simpa using ht, hv, by simpa using hq,
          by simp [ht, hv, hq]⟩)))

/-! ### Trace computation helpers -/

theorem countRepairs_nil : countRepairs [] = 0 := rfl

theorem countRepairs_cons_validated (q : String) (b : Bool) (tr : Trace) :
    countRepairs (Event.validated q b :: tr) = countRepairs tr := rfl

theorem countRepairs_cons_executed (q : String) (tr : Trace) :
    countRepairs (Event.executed q :: tr) = countRepairs tr := rfl

theorem countRepairs_cons_repaired (tg : RepairTrigger) (fs : Option String) (tr : Trace) :
    countRepairs (Event.repaired tg fs :: tr) = countRepairs tr + 1 := rfl

theorem execsGuardedFrom_cons_validated (p : Option Event) (q : String) (b : Bool) (tr : Trace) :
    execsGuardedFrom p (Event.validated q b :: tr) =
      execsGuardedFrom (some (Event.validated q b)) tr := by
  simp [execsGuardedFrom]

theorem execsGuardedFrom_cons_repaired (p : Option Event) (tg : RepairTrigger)
    (fs : Option String) (tr : Trace) :
    execsGuardedFrom p (Event.repaired tg fs :: tr) =
      execsGuardedFrom (some (Event.repaired tg fs)) tr := by
  simp [execsGuardedFrom]

theorem execsGuardedFrom_cons_executed (p : Option Event) (q : String) (tr : Trace) :
    execsGuardedFrom p (Event.executed q :: tr) =
      (decide (p = some (Event.validated q true)) &&
        execsGuardedFrom (some (Event.executed q)) tr) := by
  simp [execsGuardedFrom]

/-! ### The master loop invariant -/

/-- Master invariant of the `validate_sql`/`fix_query`/`execute_query`
loop: `retry_count` is monotone and bounded by `max_retries`, the number of
Repair transitions in the trace is exactly the `retry_count` increase, and
every `executed` event is immediately preceded by a successful validation
of the same SQL string. -/
theorem loop_master {σ : Type} (maxR : Nat) (env : Env σ) :
    ∀ (fuel : Nat) (st : AgentState) (s : σ), st.retry_count ≤ maxR →
      st.retry_count ≤ (loopFromValidate maxR env fuel st s).st.retry_count ∧
      (loopFromValidate maxR env fuel st s).st.retry_count ≤ maxR ∧
      countRepairs (loopFromValidate maxR env fuel st s).trace =
        (loopFromValidate maxR env fuel st s).st.retry_count - st.retry_count ∧
      ∀ p, execsGuardedFrom p (loopFromValidate maxR env fuel st s).trace = true := by
  intro fuel
  induction fuel with
  | zero =>
    intro st s hrc
    simp [loopFromValidate, countRepairs, execsGuardedFrom, hrc]
  | succ f ih =>
    intro st s hrc
    simp only [loopFromValidate]
    obtain ⟨ncoll, nrc, nsql, nexe, nqr, nfin, nuq, nbr⟩ := validateSqlNode_spec env st s
    set N := validateSqlNode env st s with hN
    rcases nbr with ⟨hq, herr, hev⟩ | ⟨q, hq, herr, hres⟩
    · -- sql_query absent: the validate node raises
      simp only [herr, hev]
      refine ⟨by omega, by omega, ?_, ?_⟩
      · simp only [countRepairs_nil]; omega
      · intro p
        simp [execsGuardedFrom]
    · rcases hres with ⟨hvt, hev, hvalnone⟩ | ⟨hvf, hev, hvalerr⟩
      · -- validation passed: route to execute
        have hvfalse : truthyStr N.st.validation_error = false := by
          rw [hvalnone]; rfl
        rcases shouldRetryValidation_spec maxR N.st with
          ⟨ht, _, _⟩ | ⟨ht, _, _⟩ | ⟨_, hroute⟩
        · rw [hvfalse] at ht; cases ht
        · rw [hvfalse] at ht; cases ht
        · simp only [herr, hroute, hev]
          obtain (⟨hg, _, _⟩ | ⟨hng, xrc, xsql, xval, xfin, xuq, xbr⟩) :=
            executeQueryNode_spec maxR env N.st N.coll
          · rw [hvfalse] at hg; cases hg
          · set X := executeQueryNode maxR env N.st N.coll with hX
            rcases xbr with ⟨hxq, _, _⟩ | ⟨q2, hxq, hxerr, hxev, su, res, er, s2, hxcall, hxcoll, hxres⟩
            · rw [nsql, hq] at hxq; cases hxq
            · have hq2 : q2 = q := by rw [nsql, hq] at hxq; exact (Option.some.inj hxq).symm
              subst hq2
              simp only [hxerr, hxev]
              rcases shouldRetryExecution_spec maxR X.st with
                ⟨hte, hlt, hroute2⟩ | ⟨hte, hge, hroute2⟩ | ⟨hte, htv, hge, hroute2⟩ |
                  ⟨hte, hnv, hqr2, hroute2⟩ | ⟨hte, hnv, hqr2, hroute2⟩
              · -- execution error, budget left: repair and recurse
                simp only [hroute2]
                obtain ⟨ferr, fev, frc, fval, fexe, fqr, ffin, fuq, _⟩ :=
                  fixQueryNode_spec maxR env RepairTrigger.fromExecution X.st X.coll
                set F := fixQueryNode maxR env RepairTrigger.fromExecution X.st X.coll with hF
                have hfrc : F.st.retry_count ≤ maxR := by omega
                obtain ⟨ih1, ih2, ih3, ih4⟩ := ih F.st F.coll hfrc
                simp only [fev, List.cons_append, List.nil_append]
                refine ⟨by omega, by omega, ?_, ?_⟩
                · simp only [countRepairs_cons_validated, countRepairs_cons_executed,
                    countRepairs_cons_repaired, ih3]
                  omega
                · intro p
                  simp [execsGuardedFrom_cons_validated, execsGuardedFrom_cons_executed,
                    execsGuardedFrom_cons_repaired, ih4]
              · -- execution error, budget exhausted: terminal
                simp only [hroute2]
                refine ⟨by omega, by omega, ?_, ?_⟩
                · simp only [List.cons_append, List.nil_append, List.append_nil,
                    countRepairs_cons_validated, countRepairs_cons_executed, countRepairs_nil]
                  omega
                · intro p
                  simp [execsGuardedFrom_cons_validated, execsGuardedFrom_cons_executed,
                    execsGuardedFrom]
              · -- stale validation guard: terminal
                simp only [hroute2]
                refine ⟨by omega, by omega, ?_, ?_⟩
                · simp only [List.cons_append, List.nil_append, List.append_nil,
                    countRepairs_cons_validated, countRepairs_cons_executed, countRepairs_nil]
                  omega
                · intro p
                  simp [execsGuardedFrom_cons_validated, execsGuardedFrom_cons_executed,
                    execsGuardedFrom]
              · -- results present: generate the response
                simp only [hroute2]
                obtain ⟨gev, grc, gval, gexe, gsql, _⟩ := generateResponseNode_spec env X.st X.coll
                set G := generateResponseNode env X.st X.coll with hG
                rcases hge2 : G.err with _ | e
                · simp only [hge2, gev, List.cons_append, List.nil_append, List.append_nil]
                  refine ⟨by omega, by omega, ?_, ?_⟩
                  · simp only [List.cons_append, List.nil_append, List.append_nil,
                      countRepairs_cons_validated, countRepairs_cons_executed, countRepairs_nil]
                    omega
                  · intro p
                    simp [execsGuardedFrom_cons_validated, execsGuardedFrom_cons_executed,
                      execsGuardedFrom]
                · simp only [hge2, gev, List.cons_append, List.nil_append, List.append_nil]
                  refine ⟨by omega, by omega, ?_, ?_⟩
                  · simp only [List.cons_append, List.nil_append, List.append_nil,
                      countRepairs_cons_validated, countRepairs_cons_executed, countRepairs_nil]
                    omega
                  · intro p
                    simp [execsGuardedFrom_cons_validated, execsGuardedFrom_cons_executed,
                      execsGuardedFrom]
              · -- nothing to do: terminal
                simp only [hroute2]
                refine ⟨by omega, by omega, ?_, ?_⟩
                · simp only [List.cons_append, List.nil_append, List.append_nil,
                    countRepairs_cons_validated, countRepairs_cons_executed, countRepairs_nil]
                  omega
                · intro p
                  simp [execsGuardedFrom_cons_validated, execsGuardedFrom_cons_executed,
                    execsGuardedFrom]
      · -- validation failed
        have hvtruthy : truthyStr N.st.validation_error = true := by
          rw [hvalerr]; exact validate_query_false_truthy env.parse q hvf
        rcases shouldRetryValidation_spec maxR N.st with
          ⟨_, hlt, hroute⟩ | ⟨_, hge, hroute⟩ | ⟨ht, _⟩
        · -- budget left: repair and recurse
          simp only [herr, hroute, hev]
          obtain ⟨ferr, fev, frc, fval, fexe, fqr, ffin, fuq, _⟩ :=
            fixQueryNode_spec maxR env RepairTrigger.fromValidation N.st N.coll
          set F := fixQueryNode maxR env RepairTrigger.fromValidation N.st N.coll with hF
          have hfrc : F.st.retry_count ≤ maxR := by omega
          obtain ⟨ih1, ih2, ih3, ih4⟩ := ih F.st F.coll hfrc
          simp only [fev, List.cons_append, List.nil_append]
          refine ⟨by omega, by omega, ?_, ?_⟩
          · simp only [countRepairs_cons_validated, countRepairs_cons_repaired, ih3]
            omega
          · intro p
            simp [execsGuardedFrom_cons_validated, execsGuardedFrom_cons_repaired, ih4]
        · -- budget exhausted: the route still says execute, whose guard skips it
          simp only [herr, hroute, hev]
          obtain (⟨_, _, hid⟩ | ⟨hng, _⟩) := executeQueryNode_spec maxR env N.st N.coll
          · simp only [hid]
            rcases shouldRetryExecution_spec maxR N.st with
              ⟨hte, hlt2, hroute2⟩ | ⟨hte, hge2, hroute2⟩ | ⟨hte, htv, hge2, hroute2⟩ |
                ⟨hte, hnv, hqr2, hroute2⟩ | ⟨hte, hnv, hqr2, hroute2⟩
            · omega
            · simp only [hroute2]
              refine ⟨by omega, by omega, ?_, ?_⟩
              · simp only [List.cons_append, List.nil_append, List.append_nil,
                  countRepairs_cons_validated, countRepairs_nil]
                omega
              · intro p
                simp [execsGuardedFrom_cons_validated, execsGuardedFrom]
            · simp only [hroute2]
              refine ⟨by omega, by omega, ?_, ?_⟩
              · simp only [List.cons_append, List.nil_append, List.append_nil,
                  countRepairs_cons_validated, countRepairs_nil]
                omega
              · intro p
                simp [execsGuardedFrom_cons_validated, execsGuardedFrom]
            · exact absurd ⟨hvtruthy, hge⟩ hnv
            · exact absurd ⟨hvtruthy, hge⟩ hnv
          · exact absurd ⟨hvtruthy, hge⟩ hng
        · rw [hvtruthy] at ht; cases ht

/-- The initial state built by `WorkflowAgent.run`. -/
theorem runWorkflow_initial (q : String) (hist : List ChatMsg) :
    ({ user_query := q, conversation_history := hist } : AgentState).retry_count = 0 := rfl

/-- Validation- and execution-triggered Repair transitions partition the
Repair count: there is one shared counter, not two. -/
theorem countRepairsFrom_split (tr : Trace) :
    countRepairsFrom RepairTrigger.fromValidation tr +
      countRepairsFrom RepairTrigger.fromExecution tr = countRepairs tr := by
  induction tr with
  | nil => rfl
  | cons e rest ih =>
    rcases e with ⟨q, b⟩ | q | ⟨tg, fs⟩
    · simpa [countRepairs, countRepairsFrom] using ih
    · simpa [countRepairs, countRepairsFrom] using ih
    · rcases tg with _ | _ <;>
        · simp only [countRepairs, countRepairsFrom]
          simp
          omega

/-- Master invariant at the `run` boundary: the Repair count of a whole run
equals the final `retry_count`, which never exceeds `max_retries`, and
every executed SQL was validated unchanged (trace-adjacency guard). -/
theorem runWorkflow_master {σ : Type} (maxR : Nat) (env : Env σ) (q : String)
    (hist : List ChatMsg) (s : σ) :
    countRepairs (runWorkflow maxR env q hist s).trace =
        (runWorkflow maxR env q hist s).st.retry_count ∧
      (runWorkflow maxR env q hist s).st.retry_count ≤ maxR ∧
      execsGuarded (runWorkflow maxR env q hist s).trace = true := by
  simp only [runWorkflow]
  obtain ⟨cev, cerr, crc, csql, cval, cexe, cqr, csch, cuq, chist⟩ :=
    classifyNode_spec env { user_query := q, conversation_history := hist } s
  set C := classifyNode env { user_query := q, conversation_history := hist } s with hC
  have crc0 : C.st.retry_count = 0 := by rw [crc]
  by_cases hcont : shouldContinueToSql C.st
  · simp only [hcont, if_true, cev]
    obtain ⟨r1ev, r1err, r1rc, r1sql, r1val, r1exe, r1qr, r1uq, r1hist, _⟩ :=
      retrieveSchemaNode_spec env C.st C.coll
    set R1 := retrieveSchemaNode env C.st C.coll with hR1
    obtain ⟨gev, grc, gval, gexe, gqr, guq, ghist, gbr⟩ := generateSqlNode_spec env R1.st R1.coll
    set G := generateSqlNode env R1.st R1.coll with hG
    have hgrc : G.st.retry_count = 0 := by rw [grc, r1rc, crc0]
    rcases hgerr : G.err with _ | e
    · obtain ⟨l1, l2, l3, l4⟩ := loop_master maxR env (maxR + 1) G.st G.coll (by omega)
      simp only [hgerr, gev, r1ev, List.nil_append]
      refine ⟨by rw [l3]; omega, by omega, ?_⟩
      simpa only [execsGuarded] using l4 none
    · simp only [hgerr, gev, r1ev, List.nil_append]
      exact ⟨by simp only [countRepairs_nil]; omega, by omega, rfl⟩
  · rw [if_neg hcont]
    refine ⟨?_, by simp [crc0], ?_⟩
    · simp only [cev, countRepairs_nil]
      omega
    · simp only [cev]
      rfl

/-! ### Claim C1 and C3 theorems -/

/-- C1: in every orchestrator run, over every environment of collaborators,
every SQL string handed to `db_client.execute_query` is immediately
preceded in the run trace by a successful `InputGuardrails.validate_query`
verdict on that exact string — so no SQL (including repaired SQL, which
loops back through the validation node) reaches the executor without first
passing validation unchanged. -/
theorem claim_C1_validate_before_execute {σ : Type} (maxR : Nat) (env : Env σ)
    (q : String) (hist : List ChatMsg) (s : σ) :
    execsGuarded (runWorkflow maxR env q hist s).trace = true :=
  (runWorkflow_master maxR env q hist s).2.2

/-- C3: in every orchestrator run, the final `retry_count` never exceeds
`max_retries`, the number of Repair (`fix_query`) transitions taken equals
the final `retry_count`, and the validation-triggered and
execution-triggered Repair transitions share that single counter (their
counts sum to it — there are not two independent budgets). -/
theorem claim_C3_retry_budget {σ : Type} (maxR : Nat) (env : Env σ)
    (q : String) (hist : List ChatMsg) (s : σ) :
    (runWorkflow maxR env q hist s).st.retry_count ≤ maxR ∧
    countRepairs (runWorkflow maxR env q hist s).trace =
      (runWorkflow maxR env q hist s).st.retry_count ∧
    countRepairsFrom RepairTrigger.fromValidation (runWorkflow maxR env q hist s).trace +
        countRepairsFrom RepairTrigger.fromExecution (runWorkflow maxR env q hist s).trace =
      (runWorkflow maxR env q hist s).st.retry_count := by
  obtain ⟨h1, h2, h3⟩ := runWorkflow_master maxR env q hist s
  refine ⟨h2, h1, ?_⟩
  rw [countRepairsFrom_split]
  exact h1

/-! ### Claim C2: exception behaviour of `run` -/

/-- Under a well-shaped executor, the validate/execute/repair loop cannot
raise, provided it enters with a present `sql_query` and well-shaped
stored results. -/
theorem loop_no_raise {σ : Type} (maxR : Nat) (env : Env σ) (Hex : execWellShaped env) :
    ∀ (fuel : Nat) (st : AgentState) (s : σ),
      st.sql_query.isSome = true → qrGood st.query_results →
      st.retry_count ≤ maxR → maxR + 1 ≤ st.retry_count + fuel →
      (loopFromValidate maxR env fuel st s).err = none := by
  intro fuel
  induction fuel with
  | zero =>
    intro st s hsql hqr hrc hfuel
    omega
  | succ f ih =>
    intro st s hsql hqr hrc hfuel
    simp only [loopFromValidate]
    obtain ⟨ncoll, nrc, nsql, nexe, nqr, nfin, nuq, nbr⟩ := validateSqlNode_spec env st s
    set N := validateSqlNode env st s with hN
    rcases nbr with ⟨hq, herr, hev⟩ | ⟨q, hq, herr, hres⟩
    · rw [hq] at hsql; cases hsql
    · have hnsql : N.st.sql_query = some q := by rw [nsql, hq]
      have hnqr : qrGood N.st.query_results := by rw [nqr]; exact hqr
      rcases hres with ⟨hvt, hev, hvalnone⟩ | ⟨hvf, hev, hvalerr⟩
      · -- validation passed
        have hvfalse : truthyStr N.st.validation_error = false := by rw [hvalnone]; rfl
        rcases shouldRetryValidation_spec maxR N.st with
          ⟨ht, _, _⟩ | ⟨ht, _, _⟩ | ⟨_, hroute⟩
        · rw [hvfalse] at ht; cases ht
        · rw [hvfalse] at ht; cases ht
        · simp only [herr, hroute]
          obtain (⟨hg, _, _⟩ | ⟨hng, xrc, xsql, xval, xfin, xuq, xbr⟩) :=
            executeQueryNode_spec maxR env N.st N.coll
          · rw [hvfalse] at hg; cases hg
          · set X := executeQueryNode maxR env N.st N.coll with hX
            rcases xbr with ⟨hxq, _, _⟩ | ⟨q2, hxq, hxerr, hxev, su, res, er, s2, hxcall, hxcoll, hxres⟩
            · rw [hnsql] at hxq; cases hxq
            · have hxsql : X.st.sql_query.isSome = true := by rw [xsql, hnsql]; rfl
              have hxqr : qrGood X.st.query_results := by
                rcases hxres with ⟨⟨hsu, hrs, hcs⟩, hset, _⟩ | ⟨_, hkeep, _⟩
                · have hrows := Hex q2 N.coll
                  simp only [hxcall] at hrows
                  have hrws := hrows ⟨hsu, hrs, hcs⟩
                  intro r hr
                  rw [hset] at hr
                  rw [hr] at hrws hcs
                  constructor
                  · simpa [Option.bind] using hrws
                  · simpa [Option.bind] using hcs
                · rw [hkeep]; exact hnqr
              rcases shouldRetryExecution_spec maxR X.st with
                ⟨hte, hlt, hroute2⟩ | ⟨hte, hge, hroute2⟩ | ⟨hte, htv, hge, hroute2⟩ |
                  ⟨hte, hnv, hqr2, hroute2⟩ | ⟨hte, hnv, hqr2, hroute2⟩
              · simp only [hxerr, hroute2]
                obtain ⟨ferr, fev, frc, fval, fexe, fqr, ffin, fuq, fx, s3, hfx, hfsql⟩ :=
                  fixQueryNode_spec maxR env RepairTrigger.fromExecution X.st X.coll
                set F := fixQueryNode maxR env RepairTrigger.fromExecution X.st X.coll with hF
                have hfsql2 : F.st.sql_query.isSome = true := by
                  rcases hfsql with ⟨hp, hset⟩ | ⟨_, hkeep⟩
                  · rw [hset]
                    unfold fixProgressed at hp
                    rcases fx with _ | fxv
                    · simp [truthyStr] at hp
                    · rfl
                  · rw [hkeep]; exact hxsql
                have hfqr : qrGood F.st.query_results := by rw [fqr]; exact hxqr
                exact ih F.st F.coll hfsql2 hfqr (by omega) (by omega)
              · simp only [hxerr, hroute2]
              · simp only [hxerr, hroute2]
              · simp only [hxerr, hroute2]
                obtain ⟨gev, grc, gval, gexe, gsql, gbr⟩ := generateResponseNode_spec env X.st X.coll
                set G := generateResponseNode env X.st X.coll with hG
                rcases gbr with ⟨hnone, hgerr, _⟩ | ⟨res2, hsome, hinner⟩
                · simp only [hgerr]
                · rcases hinner with ⟨rows, cols, _, _, hgerr, _⟩ | ⟨hbad, hgerr⟩
                  · simp only [hgerr]
                  · obtain ⟨hrows2, hcols2⟩ := hxqr res2 hsome
                    rcases hbad with hb | hb
                    · rw [hb] at hrows2; cases hrows2
                    · rw [hb] at hcols2; cases hcols2
              · simp only [hxerr, hroute2]
      · -- validation failed
        have hvtruthy : truthyStr N.st.validation_error = true := by
          rw [hvalerr]; exact validate_query_false_truthy env.parse q hvf
        rcases shouldRetryValidation_spec maxR N.st with
          ⟨_, hlt, hroute⟩ | ⟨_, hge, hroute⟩ | ⟨ht, _⟩
        · simp only [herr, hroute]
          obtain ⟨ferr, fev, frc, fval, fexe, fqr, ffin, fuq, fx, s3, hfx, hfsql⟩ :=
            fixQueryNode_spec maxR env RepairTrigger.fromValidation N.st N.coll
          set F := fixQueryNode maxR env RepairTrigger.fromValidation N.st N.coll with hF
          have hfsql2 : F.st.sql_query.isSome = true := by
            rcases hfsql with ⟨hp, hset⟩ | ⟨_, hkeep⟩
            · rw [hset]
              unfold fixProgressed at hp
              rcases fx with _ | fxv
              · simp [truthyStr] at hp
              · rfl
            · rw [hkeep, hnsql]; rfl
          have hfqr : qrGood F.st.query_results := by rw [fqr]; exact hnqr
          exact ih F.st F.coll hfsql2 hfqr (by omega) (by omega)
        · simp only [herr, hroute]
          obtain (⟨_, _, hid⟩ | ⟨hng, _⟩) := executeQueryNode_spec maxR env N.st N.coll
          · simp only [hid]
            rcases shouldRetryExecution_spec maxR N.st with
              ⟨hte, hlt2, hroute2⟩ | ⟨hte, hge2, hroute2⟩ | ⟨hte, htv, hge2, hroute2⟩ |
                ⟨hte, hnv, hqr2, hroute2⟩ | ⟨hte, hnv, hqr2, hroute2⟩
            · omega
            · simp only [hroute2]
            · simp only [hroute2]
            · exact absurd ⟨hvtruthy, hge⟩ hnv
            · exact absurd ⟨hvtruthy, hge⟩ hnv
          · exact absurd ⟨hvtruthy, hge⟩ hng
        · rw [hvtruthy] at ht; cases ht

/-- C2 (counterexample): the claim "run never raises; schema fetch
returning None is encoded into final_response" is false on the code.  With
both the RAG and the database returning no schema, the graph still enters
`generate_sql` (the `retrieve_schema → generate_sql` edge is
unconditional) and `state["schema_info"]` raises `KeyError`, which
propagates out of `run`. -/
theorem claim_C2_counterexample :
    (runWorkflow 3 envNoSchema "show me products" [] ()).err =
      some (RunErr.py PyErr.keyErrorSchemaInfo) ∧
    (runWorkflow 3 envNoSchema "show me products" [] ()).st.final_response =
      some schemaFailResponse := by
  decide

/-- C2 (amended): `run` returns a terminal state without raising provided
every collaborator failure the workflow guards against stays in-contract:
the schema fetch succeeds, SQL generation returns a truthy string, and the
executor is well-shaped.  (Outside these conditions the run can raise, as
the counterexample shows: a missing schema gives `KeyError`, a failed
generation makes the validator raise on `None`.) -/
theorem claim_C2_amended {σ : Type} (maxR : Nat) (env : Env σ) (q : String)
    (hist : List ChatMsg) (s : σ)
    (Hrag : ∀ s', (env.ragGetSchema s').fst.isSome = true)
    (Hgen : ∀ uq si h ctx s', truthyStr (env.genSql uq si h ctx s').fst = true)
    (Hex : execWellShaped env) :
    (runWorkflow maxR env q hist s).err = none := by
  simp only [runWorkflow]
  obtain ⟨cev, cerr, crc, csql, cval, cexe, cqr, csch, cuq, chist⟩ :=
    classifyNode_spec env { user_query := q, conversation_history := hist } s
  set C := classifyNode env { user_query := q, conversation_history := hist } s with hC
  by_cases hcont : shouldContinueToSql C.st
  · rw [if_pos hcont]
    rcases hrg : env.ragGetSchema C.coll with ⟨so, s1⟩
    have hso := Hrag C.coll
    rw [hrg] at hso
    rcases so with _ | si
    · cases hso
    obtain ⟨hsch, _, hcoll1⟩ := retrieveSchemaNode_rag env C.st C.coll si s1 hrg
    obtain ⟨r1ev, r1err, r1rc, r1sql, r1val, r1exe, r1qr, r1uq, r1hist, _⟩ :=
      retrieveSchemaNode_spec env C.st C.coll
    obtain ⟨gev, grc, gval, gexe, gqr, guq, ghist, gbr⟩ :=
      generateSqlNode_spec env (retrieveSchemaNode env C.st C.coll).st
        (retrieveSchemaNode env C.st C.coll).coll
    set R1 := retrieveSchemaNode env C.st C.coll with hR1
    set G := generateSqlNode env R1.st R1.coll with hG
    rcases gbr with ⟨hnone, _, _⟩ | ⟨si2, ctx, s12, go, s22, hsi2, hctx, hgen, hgcoll, hinner⟩
    · rw [hsch] at hnone; cases hnone
    · have hgo : truthyStr go = true := by
        have := Hgen R1.st.user_query si2 R1.st.conversation_history ctx s12
        rw [hgen] at this
        exact this
      rcases hinner with ⟨_, hgerr, hgsql, _⟩ | ⟨hgo2, _, _, _⟩
      · have hgsql2 : G.st.sql_query.isSome = true := by
          rw [hgsql]
          rcases go with _ | g
          · cases hgo
          · rfl
        have hgqr : qrGood G.st.query_results := by
          rw [gqr, r1qr, cqr]
          intro r hr
          cases hr
        have hgrc0 : G.st.retry_count = 0 := by
          rw [grc, r1rc, crc]
        have hdone := loop_no_raise maxR env Hex (maxR + 1) G.st G.coll hgsql2 hgqr
          (by omega) (by omega)
        simp only [hgerr, hdone]
      · rw [hgo] at hgo2; cases hgo2
  · rw [if_neg hcont]

/-- Witness for the amended C2 at a concrete well-behaved environment. -/
theorem claim_C2_amended_witness :
    (runWorkflow 3 envHappy "show me products" [] ()).err = none :=
  claim_C2_amended 3 envHappy "show me products" [] ()
    (fun _ => rfl) (fun _ _ _ _ _ => rfl) (fun _ _ _ => rfl)

/-! ### Claim C4: no-progress repair -/

/-- Under a no-progress repair and a SQL string that always fails
validation, the loop re-validates and re-repairs the same string until the
whole remaining budget is consumed: it terminates (no exception), with
`retry_count = max_retries`, having taken `max_retries - retry_count` more
Repair transitions — and it leaves `final_response` untouched: the
exhausted-validation message is computed only inside the conditional-edge
function, whose state mutations LangGraph discards. -/
theorem loop_no_progress {σ : Type} (maxR : Nat) (env : Env σ) (g : String)
    (Hfix : noProgressFixOn env g) (Hval : (validate_query env.parse g).fst = false) :
    ∀ (fuel : Nat) (st : AgentState) (s : σ),
      st.sql_query = some g → st.execution_error = none →
      st.retry_count ≤ maxR → maxR + 1 ≤ st.retry_count + fuel →
      (loopFromValidate maxR env fuel st s).err = none ∧
      (loopFromValidate maxR env fuel st s).st.retry_count = maxR ∧
      countRepairs (loopFromValidate maxR env fuel st s).trace = maxR - st.retry_count ∧
      (loopFromValidate maxR env fuel st s).st.final_response = st.final_response := by
  intro fuel
  induction fuel with
  | zero =>
    intro st s hsql hexe hrc hfuel
    omega
  | succ f ih =>
    intro st s hsql hexe hrc hfuel
    simp only [loopFromValidate]
    obtain ⟨ncoll, nrc, nsql, nexe, nqr, nfin, nuq, nbr⟩ := validateSqlNode_spec env st s
    set N := validateSqlNode env st s with hN
    have hnsql : N.st.sql_query = some g := by rw [nsql, hsql]
    have hnexe : N.st.execution_error = none := by rw [nexe, hexe]
    rcases nbr with ⟨hq, herr, hev⟩ | ⟨q, hq, herr, hres⟩
    · rw [hq] at hsql; cases hsql
    · have hqg : q = g := by rw [hq] at hsql; exact Option.some.inj hsql
      subst hqg
      rcases hres with ⟨hvt, hev, hvalnone⟩ | ⟨hvf, hev, hvalerr⟩
      · rw [Hval] at hvt; cases hvt
      · have hvtruthy : truthyStr N.st.validation_error = true := by
          rw [hvalerr]; exact validate_query_false_truthy env.parse q Hval
        rcases shouldRetryValidation_spec maxR N.st with
          ⟨_, hlt, hroute⟩ | ⟨_, hge, hroute⟩ | ⟨ht, _⟩
        · -- budget left: the no-progress repair keeps the same SQL
          simp only [herr, hroute, hev]
          obtain ⟨ferr, fev, frc, fval, fexe, fqr, ffin, fuq, fx, s3, hfx, hfsql⟩ :=
            fixQueryNode_spec maxR env RepairTrigger.fromValidation N.st N.coll
          set F := fixQueryNode maxR env RepairTrigger.fromValidation N.st N.coll with hF
          have hpy : pyShowOptStr N.st.sql_query = q := by rw [hnsql]; rfl
          rw [hpy] at hfx
          have hfx2 := Hfix
            (pyShowOptStr (if truthyStr N.st.execution_error = true then N.st.execution_error
              else N.st.validation_error)) N.st.user_query N.coll
          simp only [hfx] at hfx2
          have hfkeep : F.st.sql_query = some q := by
            have hnp : fixProgressed fx N.st.sql_query = false := by
              rcases hfx2 with hfx2 | hfx2
              · rw [hfx2]; rfl
              · rw [hfx2, hnsql]
                simp [fixProgressed, pyShowOptStr]
            rcases hfsql with ⟨hp, _⟩ | ⟨_, hkeep⟩
            · rw [hnp] at hp; cases hp
            · rw [hkeep, hnsql]
          have hfexe : F.st.execution_error = none := by rw [fexe, hnexe]
          obtain ⟨ih1, ih2, ih3, ih4⟩ := ih F.st F.coll hfkeep hfexe (by omega) (by omega)
          refine ⟨ih1, ih2, ?_, ih4.trans (ffin.trans nfin)⟩
          simp only [fev, List.cons_append, List.nil_append,
            countRepairs_cons_validated, countRepairs_cons_repaired, ih3]
          omega
        · -- budget exhausted: terminal via the skipped execute node
          simp only [herr, hroute, hev]
          obtain (⟨_, _, hid⟩ | ⟨hng, _⟩) := executeQueryNode_spec maxR env N.st N.coll
          · simp only [hid]
            rcases shouldRetryExecution_spec maxR N.st with
              ⟨hte, hlt2, hroute2⟩ | ⟨hte, hge2, hroute2⟩ | ⟨hte, htv, hge2, hroute2⟩ |
                ⟨hte, hnv, hqr2, hroute2⟩ | ⟨hte, hnv, hqr2, hroute2⟩
            · rw [hnexe] at hte; cases hte
            · rw [hnexe] at hte; cases hte
            · simp only [hroute2]
              refine ⟨by trivial, by omega, ?_, nfin⟩
              simp only [List.cons_append, List.nil_append, List.append_nil,
                countRepairs_cons_validated, countRepairs_nil]
              omega
            · exact absurd ⟨hvtruthy, hge⟩ hnv
            · exact absurd ⟨hvtruthy, hge⟩ hnv
          · exact absurd ⟨hvtruthy, hge⟩ hng
        · rw [hvtruthy] at ht; cases ht

/-- C4 (counterexample): with `max_retries = 3`, a generator that yields
`DROP X` and a repair step that always returns the identical `DROP X`, the
orchestrator does NOT stop within one additional iteration: it performs
all 3 Repair transitions (each on the same failing SQL) before
terminating, consuming the whole retry budget — and the terminal state
carries no exhausted-failure message at all (`final_response` is absent,
since the message is assigned inside a conditional-edge routing function
and discarded by LangGraph). -/
theorem claim_C4_counterexample :
    countRepairs (runWorkflow 3 envNoProgress "show me products" [] ()).trace = 3 ∧
    (runWorkflow 3 envNoProgress "show me products" [] ()).st.retry_count = 3 ∧
    ((runWorkflow 3 envNoProgress "show me products" [] ()).trace.all fun e =>
      match e with
      | Event.repaired _ fs => decide (fs = some "DROP X")
      | _ => true) = true ∧
    ¬(countRepairs (runWorkflow 3 envNoProgress "show me products" [] ()).trace ≤ 1) ∧
    (runWorkflow 3 envNoProgress "show me products" [] ()).st.final_response = none := by
  decide

/-- C4 (amended): if Repair returns SQL textually identical to the failing
SQL (or empty/none), the orchestrator still terminates and does not loop
forever — but only after consuming the entire retry budget (`max_retries`
Repair transitions), not within one additional iteration; and it
terminates with `final_response` absent rather than with an
exhausted-failure message, because that message is assigned inside the
conditional-edge routing function, whose state mutations LangGraph
discards. -/
theorem claim_C4_amended {σ : Type} (maxR : Nat) (env : Env σ) (q : String)
    (hist : List ChatMsg) (s : σ) (g : String)
    (Hcls : env.classifyLLM = none) (Hfb : classify_query q = "sql_query")
    (Hrag : ∀ s', (env.ragGetSchema s').fst.isSome = true)
    (Hgen : ∀ uq si h ctx s', (env.genSql uq si h ctx s').fst = some g)
    (Hg : truthyStr (some g) = true)
    (Hval : (validate_query env.parse g).fst = false)
    (Hfix : noProgressFixOn env g) :
    (runWorkflow maxR env q hist s).err = none ∧
    (runWorkflow maxR env q hist s).st.retry_count = maxR ∧
    countRepairs (runWorkflow maxR env q hist s).trace = maxR ∧
    (runWorkflow maxR env q hist s).st.final_response = none := by
  simp only [runWorkflow]
  obtain ⟨cev, cerr, crc, csql, cval, cexe, cqr, csch, cuq, chist⟩ :=
    classifyNode_spec env { user_query := q, conversation_history := hist } s
  obtain ⟨hqt, hcfin, _⟩ := classifyNode_fallback_sql env
    { user_query := q, conversation_history := hist } s Hcls Hfb
  set C := classifyNode env { user_query := q, conversation_history := hist } s with hC
  have hcont : shouldContinueToSql C.st = true := by
    unfold shouldContinueToSql
    rw [hqt]
    rfl
  rw [if_pos hcont]
  rcases hrg : env.ragGetSchema C.coll with ⟨so, s1⟩
  have hso := Hrag C.coll
  rw [hrg] at hso
  rcases so with _ | si
  · cases hso
  obtain ⟨hsch, hr1fin, hcoll1⟩ := retrieveSchemaNode_rag env C.st C.coll si s1 hrg
  obtain ⟨r1ev, r1err, r1rc, r1sql, r1val, r1exe, r1qr, r1uq, r1hist, _⟩ :=
    retrieveSchemaNode_spec env C.st C.coll
  obtain ⟨gev, grc, gval, gexe, gqr, guq, ghist, gbr⟩ :=
    generateSqlNode_spec env (retrieveSchemaNode env C.st C.coll).st
      (retrieveSchemaNode env C.st C.coll).coll
  set R1 := retrieveSchemaNode env C.st C.coll with hR1
  set G := generateSqlNode env R1.st R1.coll with hG
  rcases gbr with ⟨hnone, _, _⟩ | ⟨si2, ctx, s12, go, s22, hsi2, hctx, hgen, hgcoll, hinner⟩
  · rw [hsch] at hnone; cases hnone
  · have hgog : go = some g := by
      have := Hgen R1.st.user_query si2 R1.st.conversation_history ctx s12
      rw [hgen] at this
      exact this
    rcases hinner with ⟨_, hgerr, hgsql, hgfin⟩ | ⟨hgo2, _, _, _⟩
    · have hgsql2 : G.st.sql_query = some g := by rw [hgsql, hgog]
      have hgexe : G.st.execution_error = none := by
        rw [gexe, r1exe, cexe]
      have hgrc0 : G.st.retry_count = 0 := by
        rw [grc, r1rc, crc]
      obtain ⟨l1, l2, l3, l4⟩ := loop_no_progress maxR env g Hfix Hval (maxR + 1)
        G.st G.coll hgsql2 hgexe (by omega) (by omega)
      simp only [hgerr, gev, r1ev, cev, List.nil_append]
      exact ⟨l1, l2, by rw [l3]; omega, by rw [l4, hgfin, hr1fin, hcfin]⟩
    · rw [hgog] at hgo2
      rw [Hg] at hgo2
      cases hgo2

/-- Witness for the amended C4: the concrete no-progress environment with
`max_retries = 3` terminates after 3 repairs with no final response. -/
theorem claim_C4_amended_witness :
    (runWorkflow 3 envNoProgress "show me products" [] ()).err = none ∧
    (runWorkflow 3 envNoProgress "show me products" [] ()).st.retry_count = 3 ∧
    countRepairs (runWorkflow 3 envNoProgress "show me products" [] ()).trace = 3 ∧
    (runWorkflow 3 envNoProgress "show me products" [] ()).st.final_response = none :=
  claim_C4_amended 3 envNoProgress "show me products" [] () "DROP X"
    rfl (by decide) (fun _ => rfl) (fun _ _ _ _ _ => rfl) (by decide) (by decide)
    (fun _ _ _ => Or.inr rfl)

/-! ### Claim C5: which failure the terminal message reports -/

/-- Entering the loop with `sql_query` absent raises at once: the
validation node calls `validate_query(None)`, i.e. `None.upper()`. -/
theorem loop_none_sql {σ : Type} (maxR : Nat) (env : Env σ) (fuel : Nat)
    (st : AgentState) (s : σ) (h : st.sql_query = none) :
    (loopFromValidate maxR env (fuel + 1) st s).err =
      some (RunErr.py PyErr.attrErrorNoneQuery) := by
  simp only [loopFromValidate]
  obtain ⟨ncoll, nrc, nsql, nexe, nqr, nfin, nuq, nbr⟩ := validateSqlNode_spec env st s
  rcases nbr with ⟨hq, herr, hev⟩ | ⟨q, hq, herr, hres⟩
  · simp only [herr]
  · rw [h] at hq; cases hq

/-- When `_classify_query_node` classifies the query as `sql_query`, it has
not written `final_response` (only the greeting and general-question
branches write it). -/
theorem classifyNode_sql_keeps_final {σ : Type} (env : Env σ) (st : AgentState) (s : σ)
    (h : (classifyNode env st s).st.query_type = some "sql_query") :
    (classifyNode env st s).st.final_response = st.final_response := by
  simp only [classifyNode] at h ⊢
  rcases hc : env.classifyLLM with _ | cls
  · by_cases hg : classify_query st.user_query = "greeting"
    · simp [logStep, hc, hg] at h
    · by_cases hq2 : classify_query st.user_query = "general_question"
      · simp [logStep, hc, hg, hq2] at h
      · simp [logStep, hc, hg, hq2]
  · rcases hcall : cls st.user_query (env.ragGetSchema s).1 st.conversation_history
        (env.ragGetSchema s).2 with ⟨cr, s2⟩
    rcases cr with e | ⟨needs, reason⟩
    · by_cases hg : classify_query st.user_query = "greeting"
      · simp [logStep, hc, hcall, hg] at h
      · by_cases hq2 : classify_query st.user_query = "general_question"
        · simp [logStep, hc, hcall, hg, hq2] at h
        · simp [logStep, hc, hcall, hg, hq2]
    · rcases needs with _ | _
      · simp [logStep, hc, hcall] at h
      · simp [logStep, hc, hcall]

/-- The repair loop never writes `final_response` on a path that
terminates with a truthy validation error: the exhausted-failure messages
of the source are assigned only inside the conditional-edge routing
functions, whose state mutations LangGraph discards, and no node on such a
path touches `final_response`. -/
theorem loop_keeps_final {σ : Type} (maxR : Nat) (env : Env σ) :
    ∀ (fuel : Nat) (st : AgentState) (s : σ),
      (loopFromValidate maxR env fuel st s).err = none →
      truthyStr (loopFromValidate maxR env fuel st s).st.validation_error = true →
      (loopFromValidate maxR env fuel st s).st.final_response = st.final_response := by
  intro fuel
  induction fuel with
  | zero =>
    intro st s h1
    simp [loopFromValidate] at h1
  | succ f ih =>
    intro st s
    simp only [loopFromValidate]
    obtain ⟨ncoll, nrc, nsql, nexe, nqr, nfin, nuq, nbr⟩ := validateSqlNode_spec env st s
    set N := validateSqlNode env st s with hN
    rcases nbr with ⟨hq, herr, hev⟩ | ⟨q, hq, herr, hres⟩
    · simp only [herr]
      intro h1
      cases h1
    · rcases hres with ⟨hvt, hev, hvalnone⟩ | ⟨hvf, hev, hvalerr⟩
      · -- validation passed
        have hvfalse : truthyStr N.st.validation_error = false := by rw [hvalnone]; rfl
        rcases shouldRetryValidation_spec maxR N.st with
          ⟨ht, _, _⟩ | ⟨ht, _, _⟩ | ⟨_, hroute⟩
        · rw [hvfalse] at ht; cases ht
        · rw [hvfalse] at ht; cases ht
        · simp only [herr, hroute]
          obtain (⟨hg, _, _⟩ | ⟨hng, xrc, xsql, xval, xfin, xuq, xbr⟩) :=
            executeQueryNode_spec maxR env N.st N.coll
          · rw [hvfalse] at hg; cases hg
          · set X := executeQueryNode maxR env N.st N.coll with hX
            have hxvalnone : X.st.validation_error = none := by rw [xval, hvalnone]
            rcases xbr with ⟨hxq, hxerr, hxev⟩ | ⟨q2, hxq, hxerr, hxev, su, res, er, s2, hxcall, hxcoll, hxres⟩
            · simp only [hxerr]
              intro h1
              cases h1
            · simp only [hxerr]
              rcases shouldRetryExecution_spec maxR X.st with
                ⟨hte, hlt, hroute2⟩ | ⟨hte, hge, hroute2⟩ | ⟨hte, htv, hge, hroute2⟩ |
                  ⟨hte, hnv, hqr2, hroute2⟩ | ⟨hte, hnv, hqr2, hroute2⟩
              · simp only [hroute2]
                obtain ⟨ferr, fev, frc, fval, fexe, fqr, ffin, fuq, _⟩ :=
                  fixQueryNode_spec maxR env RepairTrigger.fromExecution X.st X.coll
                set F := fixQueryNode maxR env RepairTrigger.fromExecution X.st X.coll with hF
                intro h1 h2
                exact (ih F.st F.coll h1 h2).trans (ffin.trans (xfin.trans nfin))
              · simp only [hroute2]
                intro h1 h2
                rw [hxvalnone] at h2
                cases h2
              · rw [hxvalnone] at htv; cases htv
              · simp only [hroute2]
                obtain ⟨gev, grc, gval, gexe, gsql, _⟩ := generateResponseNode_spec env X.st X.coll
                set G := generateResponseNode env X.st X.coll with hG
                rcases hge2 : G.err with _ | e
                · simp only [hge2]
                  intro h1 h2
                  rw [gval, hxvalnone] at h2
                  cases h2
                · simp only [hge2]
                  intro h1
                  cases h1
              · simp only [hroute2]
                intro h1 h2
                rw [hxvalnone] at h2
                cases h2
      · -- validation failed
        have hvtruthy : truthyStr N.st.validation_error = true := by
          rw [hvalerr]; exact validate_query_false_truthy env.parse q hvf
        rcases shouldRetryValidation_spec maxR N.st with
          ⟨_, hlt, hroute⟩ | ⟨_, hge, hroute⟩ | ⟨ht, _⟩
        · simp only [herr, hroute]
          obtain ⟨ferr, fev, frc, fval, fexe, fqr, ffin, fuq, _⟩ :=
            fixQueryNode_spec maxR env RepairTrigger.fromValidation N.st N.coll
          set F := fixQueryNode maxR env RepairTrigger.fromValidation N.st N.coll with hF
          intro h1 h2
          exact (ih F.st F.coll h1 h2).trans (ffin.trans nfin)
        · simp only [herr, hroute]
          obtain (⟨_, _, hid⟩ | ⟨hng, _⟩) := executeQueryNode_spec maxR env N.st N.coll
          · simp only [hid]
            rcases shouldRetryExecution_spec maxR N.st with
              ⟨hte, hlt2, hroute2⟩ | ⟨hte, hge2, hroute2⟩ | ⟨hte, htv, hge2, hroute2⟩ |
                ⟨hte, hnv, hqr2, hroute2⟩ | ⟨hte, hnv, hqr2, hroute2⟩
            · omega
            · simp only [hroute2]
              intro h1 h2
              exact nfin
            · simp only [hroute2]
              intro h1 h2
              exact nfin
            · exact absurd ⟨hvtruthy, hge⟩ hnv
            · exact absurd ⟨hvtruthy, hge⟩ hnv
          · exact absurd ⟨hvtruthy, hge⟩ hng
        · rw [hvtruthy] at ht; cases ht

/-- C5 (counterexample): with `max_retries = 1`, a first execution failure
(`E1`) followed by a repair whose SQL fails validation leaves BOTH a
validation error and an exhausted budget in the terminal state — yet the
terminal `final_response` is absent entirely: it does not report the
validation failure (nor anything else); the message assignments of
`_should_retry_validation` and `_should_retry_execution` happen inside
conditional-edge routing functions and are discarded by LangGraph. -/
theorem claim_C5_counterexample :
    truthyStr (runWorkflow 1 envStaleExec "show me products" [] ()).st.validation_error = true ∧
    1 ≤ (runWorkflow 1 envStaleExec "show me products" [] ()).st.retry_count ∧
    (runWorkflow 1 envStaleExec "show me products" [] ()).err = none ∧
    (runWorkflow 1 envStaleExec "show me products" [] ()).st.final_response = none ∧
    (runWorkflow 1 envStaleExec "show me products" [] ()).st.final_response ≠
      some (valMsgFor 1
        (runWorkflow 1 envStaleExec "show me products" [] ()).st.validation_error) := by
  decide

/-- C5 (amended): in every terminal state (no exception escaping `run`) in
which both a validation error and an exhausted retry budget are present,
`final_response` is absent (`none`): neither the validation-failure nor
the execution-failure message is reported, because both are assigned only
inside conditional-edge routing functions, whose state mutations LangGraph
discards. -/
theorem claim_C5_amended {σ : Type} (maxR : Nat) (env : Env σ) (q : String)
    (hist : List ChatMsg) (s : σ)
    (h1 : (runWorkflow maxR env q hist s).err = none)
    (h2 : truthyStr (runWorkflow maxR env q hist s).st.validation_error = true)
    (h3 : maxR ≤ (runWorkflow maxR env q hist s).st.retry_count) :
    (runWorkflow maxR env q hist s).st.final_response = none := by
  simp only [runWorkflow] at h1 h2 h3 ⊢
  obtain ⟨cev, cerr, crc, csql, cval, cexe, cqr, csch, cuq, chist⟩ :=
    classifyNode_spec env { user_query := q, conversation_history := hist } s
  set C := classifyNode env { user_query := q, conversation_history := hist } s with hC
  by_cases hcont : shouldContinueToSql C.st
  · rw [if_pos hcont] at h1 h2 h3 ⊢
    have hcfin : C.st.final_response = none := by
      have hqt : C.st.query_type = some "sql_query" := by
        have hb : (C.st.query_type == some "sql_query") = true := hcont
        simpa using hb
      exact classifyNode_sql_keeps_final env _ s hqt
    obtain ⟨r1ev, r1err, r1rc, r1sql, r1val, r1exe, r1qr, r1uq, r1hist, r1br⟩ :=
      retrieveSchemaNode_spec env C.st C.coll
    obtain ⟨gev, grc, gval, gexe, gqr, guq, ghist, gbr⟩ :=
      generateSqlNode_spec env (retrieveSchemaNode env C.st C.coll).st
        (retrieveSchemaNode env C.st C.coll).coll
    set R1 := retrieveSchemaNode env C.st C.coll with hR1
    set G := generateSqlNode env R1.st R1.coll with hG
    rcases hgerr : G.err with _ | e
    · simp only [hgerr] at h1 h2 h3 ⊢
      rw [loop_keeps_final maxR env (maxR + 1) G.st G.coll h1 h2]
      rcases r1br with ⟨si, hsch, hr1fin⟩ | ⟨hschkeep, hr1fin⟩
      · rcases gbr with ⟨hnone, _, _⟩ | ⟨si2, ctx, s1x, go, s2x, hsi2, hctx, hgen, hgcoll, hinner⟩
        · rw [hsch] at hnone; cases hnone
        · rcases hinner with ⟨_, _, _, hgfin⟩ | ⟨_, _, hgsqlkeep, _⟩
          · rw [hgfin, hr1fin, hcfin]
          · exfalso
            have hgsqlnone : G.st.sql_query = none := by rw [hgsqlkeep, r1sql, csql]
            rw [loop_none_sql maxR env maxR G.st G.coll hgsqlnone] at h1
            cases h1
      · exfalso
        rcases gbr with ⟨_, hke, _⟩ | ⟨si2, _, _, _, _, hsi2, _⟩
        · rw [hke] at hgerr; cases hgerr
        · rw [hschkeep, csch] at hsi2; cases hsi2
    · simp only [hgerr] at h1
      cases h1
  · rw [if_neg hcont] at h2
    have h2b : truthyStr C.st.validation_error = true := h2
    rw [cval] at h2b
    cases h2b

/-- Witness for the amended C5: the stale-execution run terminates with
both a validation error and an exhausted budget present, and its
`final_response` is absent. -/
theorem claim_C5_amended_witness :
    (runWorkflow 1 envStaleExec "show me products" [] ()).st.final_response = none :=
  claim_C5_amended 1 envStaleExec "show me products" [] ()
    (by decide) (by decide) (by decide)

/-! ### Claims C6, C7, C10: the validator -/

/-- With at least two parsed statements, the first loop iteration of
`validate_select_only` rejects in every branch. -/
theorem selectOnlyStmts_multi_false (n : Nat) (u : String) (hn : 1 < n) :
    ∀ (stmt : SqlStmt) (rest : List SqlStmt),
      (selectOnlyStmts n u (stmt :: rest)).fst = false := by
  intro stmt rest
  simp only [selectOnlyStmts]
  split
  · split
    · rfl
    · simp only [hn, if_true]
  · split
    · rfl
    · simp only [hn, if_true]

/-- Lemma: `validate_select_only` rejects every multi-statement parse. -/
theorem validate_select_only_multi (q : String) (parsed : List SqlStmt)
    (hlen : 1 < parsed.length) :
    (validate_select_only (Except.ok parsed) q).fst = false := by
  rcases parsed with _ | ⟨stmt, rest⟩
  · simp at hlen
  · exact selectOnlyStmts_multi_false ((stmt :: rest).length) (pyStrip (pyUpper q))
      (by simpa using hlen) stmt rest

/-- C6: for every SQL string that `sqlparse` splits into more than one
statement, `InputGuardrails.validate_query` returns failure — statement
chaining is always rejected. -/
theorem claim_C6_multi_statement_rejected (parse : SqlParse) (q : String)
    (parsed : List SqlStmt) (hp : parse q = Except.ok parsed) (hlen : 1 < parsed.length) :
    (validate_query parse q).fst = false := by
  unfold validate_query
  split
  · rfl
  · split
    · rfl
    · rename_i heq2
      have hf := validate_select_only_multi q parsed hlen
      rw [hp] at heq2
      rw [heq2] at hf
      cases hf

/-- Witness for C6 at a concrete chained query. -/
theorem claim_C6_witness :
    (validate_query parseTwoSelects "SELECT 1 UNION SELECT 2 GO SELECT 3").fst = false :=
  claim_C6_multi_statement_rejected parseTwoSelects "SELECT 1 UNION SELECT 2 GO SELECT 3"
    [[⟨TokKind.dml, "SELECT"⟩], [⟨TokKind.dml, "SELECT"⟩]] rfl (by decide)

/-- C7: a forbidden keyword occurring as a separate whole word anywhere in
the query (in any letter case — the match runs on the uppercased query)
makes `validate_query` fail, regardless of the parse and of the leading
keyword. -/
theorem claim_C7_forbidden_keyword_rejected (parse : SqlParse) (q kw : String)
    (hkw : kw ∈ FORBIDDEN_KEYWORDS) (hocc : hasWholeWord kw (pyUpper q) = true) :
    (validate_query parse q).fst = false := by
  have hinj : (check_sql_injection q).fst = false := by
    simp only [check_sql_injection]
    rcases hf : List.find? (fun k => hasWholeWord k (pyUpper q)) FORBIDDEN_KEYWORDS with _ | k2
    · rw [List.find?_eq_none] at hf
      exact absurd hocc (by simpa using hf kw hkw)
    · simp only [hf]
  unfold validate_query
  split
  · rfl
  · rename_i heq
    rw [heq] at hinj
    cases hinj

/-- Witness for C7: a `DROP` after a leading SELECT. -/
theorem claim_C7_witness :
    (validate_query parseOneSelect "select 1; drop table users").fst = false :=
  claim_C7_forbidden_keyword_rejected parseOneSelect "select 1; drop table users" "DROP"
    (by decide) (by decide)

/-- C10: a `--` substring, an `sp_`/`xp_` substring (case-insensitively),
or a `0x` hex literal anywhere in the query makes `validate_query` fail —
the injection patterns are raw substring/regex matches over the whole
uppercased query, so benign queries such as `SELECT * FROM grasp_records`
(whose table name contains `sp_`) are rejected too. -/
theorem claim_C10_injection_patterns_rejected (parse : SqlParse) (q : String)
    (h : matchDashDash (pyUpper q).data = true ∨ hasSub "SP_".data (pyUpper q).data = true ∨
      hasSub "XP_".data (pyUpper q).data = true ∨ matchHexLit (pyUpper q).data = true) :
    (validate_query parse q).fst = false := by
  have hinj : (check_sql_injection q).fst = false := by
    simp only [check_sql_injection]
    rcases hf : List.find? (fun k => hasWholeWord k (pyUpper q)) FORBIDDEN_KEYWORDS with _ | k2
    · have hhit : sqlInjectionPatternHit (pyUpper q).data = true := by
        unfold sqlInjectionPatternHit
        rcases h with h | h | h | h <;> simp [h]
      simp only [hf, hhit, if_true]
    · simp only [hf]
  unfold validate_query
  split
  · rfl
  · rename_i heq
    rw [heq] at hinj
    cases hinj

/-- Witness for C10: the benign single-SELECT query over `grasp_records`
is rejected because its table name contains `sp_`. -/
theorem claim_C10_witness :
    (validate_query parseOneSelect "SELECT * FROM grasp_records").fst = false :=
  claim_C10_injection_patterns_rejected parseOneSelect "SELECT * FROM grasp_records"
    (Or.inr (Or.inl (by decide)))

/-! ### Claim C8: behaviour when the schema is unavailable -/

/-- C8 (code versus claim): when both the RAG cache and the database
client return no schema, the run does set the schema-failure
`final_response`, but the unconditional `retrieve_schema → generate_sql`
edge still enters the generation node — a "SQL Generation" step IS
recorded — and the run then raises `KeyError` on the absent
`state["schema_info"]` instead of terminating cleanly. -/
theorem claim_C8_schema_unavailable_behavior :
    (runWorkflow 3 envNoSchema "show me products" [] ()).st.final_response =
      some schemaFailResponse ∧
    (runWorkflow 3 envNoSchema "show me products" [] ()).err =
      some (RunErr.py PyErr.keyErrorSchemaInfo) ∧
    ((runWorkflow 3 envNoSchema "show me products" [] ()).st.steps.any fun stp =>
      decide (stp.name = "SQL Generation")) = true := by
  decide

/-! ### Claim C9: the fallback classifier -/

/-- C9 (counterexample): "which customers joined" contains the
query-indicating keyword `which` and none of the greeting words as a
word — the claim says it is classified `sql_query` — yet the fallback
classifier returns `greeting`, because Python `in` is substring
containment and `which` contains the greeting word `hi`. -/
theorem claim_C9_counterexample :
    (fallbackGreetingWords.all fun w => !(specContainsWord w "which customers joined")) = true ∧
    specContainsWord "which" "which customers joined" = true ∧
    classify_query "which customers joined" = "greeting" ∧
    classify_query "which customers joined" ≠ "sql_query" := by
  decide

/-- Lemma: `hasSub` decides list-infix containment. -/
theorem hasSub_infix_iff (n : List Char) : ∀ (h : List Char), hasSub n h = true ↔ n <:+: h := by
  intro h
  induction h with
  | nil =>
    simp only [hasSub, List.isEmpty_iff]
    constructor
    · intro h1; rw [h1]
    · intro h1; exact List.eq_nil_of_infix_nil h1
  | cons c rest ih =>
    simp only [hasSub, Bool.or_eq_true, List.isPrefixOf_iff_prefix, ih, List.infix_cons_iff]

/-- C9 (amended): the fallback classifier is a deterministic total
function into the three labels, but containment is substring containment
on the lowercased input; consequently every input containing `which`
(which contains the greeting word `hi` as a substring) is classified
`greeting`, not `sql_query`. -/
theorem claim_C9_amended (q : String) :
    (classify_query q = "greeting" ∨ classify_query q = "sql_query" ∨
      classify_query q = "general_question") ∧
    (classify_query q = "greeting" ↔
      (fallbackGreetingWords.any fun w => hasSub w.data (pyLower q).data) = true) ∧
    (hasSub "which".data (pyLower q).data = true → classify_query q = "greeting") := by
  refine ⟨?_, ⟨?_, ?_⟩, ?_⟩
  · simp only [classify_query]
    by_cases h1 : (fallbackGreetingWords.any fun w => hasSub w.data (pyLower q).data) = true
    · left; rw [if_pos h1]
    · by_cases h2 : (fallbackSqlKeywords.any fun w => hasSub w.data (pyLower q).data) = true
      · right; left; rw [if_neg h1, if_pos h2]
      · right; right; rw [if_neg h1, if_neg h2]
  · intro h1
    by_cases hg : (fallbackGreetingWords.any fun w => hasSub w.data (pyLower q).data) = true
    · exact hg
    · exfalso
      simp only [classify_query] at h1
      by_cases h2 : (fallbackSqlKeywords.any fun w => hasSub w.data (pyLower q).data) = true
      · rw [if_neg hg, if_pos h2] at h1
        exact absurd h1 (by decide)
      · rw [if_neg hg, if_neg h2] at h1
        exact absurd h1 (by decide)
  · intro hg
    simp only [classify_query]
    rw [if_pos hg]
  · intro h
    have hinf : "which".data <:+: (pyLower q).data := (hasSub_infix_iff _ _).mp h
    have hhi : ("hi".data : List Char) <:+: "which".data := (hasSub_infix_iff _ _).mp (by decide)
    have hsub : hasSub "hi".data (pyLower q).data = true :=
      (hasSub_infix_iff _ _).mpr (hhi.trans hinf)
    have hany : (fallbackGreetingWords.any fun w => hasSub w.data (pyLower q).data) = true := by
      rw [List.any_eq_true]
      exact ⟨"hi", by decide, hsub⟩
    simp only [classify_query]
    rw [if_pos hany]

/-- Witness for the amended C9: an input containing `which` is classified
`greeting`. -/
theorem claim_C9_amended_witness :
    hasSub "which".data (pyLower "which customers joined").data = true ∧
    classify_query "which customers joined" = "greeting" :=
  ⟨by decide, (claim_C9_amended "which customers joined").2.2 (by decide)⟩

end DbChatBot
